import Mathlib

/-!
# Verification of `examples/basic/main.cpp` (ndsev/sqlite-cmake)

The repository's only program is a linear smoke test of the SQLite C API.  The
embedding below runs `main` against an arbitrary *engine behaviour*: a record
giving, for every call site of the program, the value the engine returns
there.  Running `main` yields the exit status together with the ordered trace
of engine calls and stream writes the program performs.

Conventions of the embedding:

* a result code is an `Int`; the constants are those of `sqlite3.h`;
* a C string handed back by the engine (`sqlite3_errmsg`, the `errMsg` buffer
  of `sqlite3_exec`, `sqlite3_column_text`) is represented by its text;
* a `double` is a value of an arbitrary type `D`, and the rendering done by
  `std::cout << value` is a parameter `fmt : D → String`;
* one `std::cout << ... << std::endl` statement is one `cout` event carrying
  the concatenation of the inserted operands (the `endl` is implicit), and
  likewise for `std::cerr`; an engine call made while evaluating the operands
  of such a statement is recorded just before the statement's event;
* the successive results of `sqlite3_step` on the `SELECT` statement are a
  list; if the loop asks for more results than the list holds, the run is
  undetermined and `main` yields `none`.
-/

namespace SqliteCmake

/-! ## Constants of `sqlite3.h` -/

/-- Successful result. -/
def SQLITE_OK : Int := 0

/-- Result of `sqlite3_step`: another row is ready. -/
def SQLITE_ROW : Int := 100

/-- Result of `sqlite3_step`: the statement has finished executing. -/
def SQLITE_DONE : Int := 101

/-- Result code "unable to open the database file". -/
def SQLITE_CANTOPEN : Int := 14

/-- Result code "generic error". -/
def SQLITE_ERROR : Int := 1

/-! ## String literals of `main.cpp` -/

/-- Lines 27-32. -/
def createTableSQL : String :=
  "CREATE TABLE IF NOT EXISTS test (" ++
  "id INTEGER PRIMARY KEY," ++
  "name TEXT NOT NULL," ++
  "value REAL" ++
  ");"

/-- Lines 46-50. -/
def insertSQL : String :=
  "INSERT INTO test (name, value) VALUES " ++
  "(\x27Alice\x27, 3.14), " ++
  "(\x27Bob\x27, 2.71), " ++
  "(\x27Charlie\x27, 1.41);"

/-- Line 63. -/
def selectSQL : String := "SELECT name, value FROM test ORDER BY name;"

/-- Line 83. -/
def fts5SQL : String :=
  "CREATE VIRTUAL TABLE IF NOT EXISTS fts_test USING fts5(content);"

/-- Line 93. -/
def jsonSQL : String := "SELECT json_array(1, 2, 3);"

/-! ## Traces -/

/-- The two statement objects `main` can create: the one compiled from
`selectSQL` (line 66) and the one compiled from `jsonSQL` (line 94).  The
variable `stmt` of the source holds the first, then the second. -/
inductive Stmt
  | select
  | json
  deriving DecidableEq, Repr

/-- One observable action of `main`: a call into the engine (with the arguments
the program passes; the connection `db` is the only connection and is left
implicit) or a write to a standard stream. -/
inductive Event
  /-- Call `sqlite3_open(filename, &db)` -/
  | sqlite3_open (filename : String)
  /-- Call `sqlite3_errmsg(db)` -/
  | sqlite3_errmsg
  /-- Call `sqlite3_libversion()` -/
  | sqlite3_libversion
  /-- Call `sqlite3_exec(db, sql, nullptr, nullptr, &errMsg)` -/
  | sqlite3_exec (sql : String)
  /-- Call `sqlite3_free(errMsg)`, the buffer given by its text -/
  | sqlite3_free (errMsg : String)
  /-- Call `sqlite3_close(db)` -/
  | sqlite3_close
  /-- Call `sqlite3_prepare_v2(db, sql, -1, &stmt, nullptr)` -/
  | sqlite3_prepare_v2 (sql : String)
  /-- Call `sqlite3_step(stmt)` -/
  | sqlite3_step (stmt : Stmt)
  /-- Call `sqlite3_column_text(stmt, iCol)` -/
  | sqlite3_column_text (stmt : Stmt) (iCol : Nat)
  /-- Call `sqlite3_column_double(stmt, iCol)` -/
  | sqlite3_column_double (stmt : Stmt) (iCol : Nat)
  /-- Call `sqlite3_finalize(stmt)` -/
  | sqlite3_finalize (stmt : Stmt)
  /-- Statement `std::cout << text << std::endl` -/
  | cout (text : String)
  /-- Statement `std::cerr << text << std::endl` -/
  | cerr (text : String)
  deriving DecidableEq, Repr

/-- The outcome of a run of `main`: what it did, in order, and the value it
returned. -/
structure Run where
  trace : List Event
  exit : Int
  deriving DecidableEq, Repr

/-! ## Engine behaviours -/

/-- What one `sqlite3_exec` call gives back: the result code and the text of
the diagnostic buffer left in `errMsg` (read by the program only when the
result code is not `SQLITE_OK`). -/
structure ExecResult where
  rc : Int
  errMsg : String

/-- What one `sqlite3_step` call on the `SELECT` statement gives back: the
result code and, for use when a row is ready, the values the two column
readers return for that row. -/
structure StepResult (D : Type) where
  rc : Int
  column_text0 : String
  column_double1 : D

/-- An engine behaviour: the answer of the engine at each call site of
`main`. -/
structure Engine (D : Type) where
  /-- line 10: result code of `sqlite3_open` -/
  open_rc : Int
  /-- line 12: `sqlite3_errmsg(db)` after the failed open -/
  open_errmsg : String
  /-- line 17: `sqlite3_libversion()` -/
  libversion : String
  /-- line 35: `sqlite3_exec` of `createTableSQL` -/
  createTable : ExecResult
  /-- line 52: `sqlite3_exec` of `insertSQL` -/
  insert : ExecResult
  /-- line 66: result code of `sqlite3_prepare_v2` of `selectSQL` -/
  select_prepare_rc : Int
  /-- line 68: `sqlite3_errmsg(db)` after the failed prepare -/
  select_errmsg : String
  /-- line 74: results of the successive `sqlite3_step` calls -/
  select_steps : List (StepResult D)
  /-- line 84: `sqlite3_exec` of `fts5SQL` -/
  fts5 : ExecResult
  /-- line 94: result code of `sqlite3_prepare_v2` of `jsonSQL` -/
  json_prepare_rc : Int
  /-- The diagnostic the engine holds for the connection after the prepare of
  `jsonSQL` (what `sqlite3_errmsg(db)` would report); `main` never asks for it -/
  json_errmsg : String
  /-- line 96: result code of `sqlite3_step` on the JSON statement -/
  json_step_rc : Int
  /-- line 97: `sqlite3_column_text(stmt, 0)` on the JSON statement -/
  json_text : String

/-! ## The program -/

section Program

variable {D : Type}

/-- Line 77: the text written for one result row. -/
def rowLine (fmt : D → String) (name : String) (value : D) : String :=
  "  " ++ name ++ ": " ++ fmt value

/-- Lines 75-77: the body of the `while` loop for the row delivered by the
step result `s`. -/
def rowEvents (fmt : D → String) (s : StepResult D) : List Event :=
  [ .sqlite3_column_text .select 0,
    .sqlite3_column_double .select 1,
    .cout (rowLine fmt s.column_text0 s.column_double1) ]

/-- Lines 74-78: the `while ((rc = sqlite3_step(stmt)) == SQLITE_ROW)` loop,
run against the remaining step results.  `none` when the results run out
before a status other than `SQLITE_ROW` is seen. -/
def queryLoop (fmt : D → String) : List (StepResult D) → Option (List Event)
  | [] => none
  | s :: rest =>
    if s.rc = SQLITE_ROW then
      (queryLoop fmt rest).map
        (fun t => Event.sqlite3_step .select :: rowEvents fmt s ++ t)
    else
      some [Event.sqlite3_step .select]

/-- Lines 16-24: the three lines printed once the database is open; `nds` is
the build-time flag `SQLITE_USING_NDS_BACKEND`. -/
def banner (nds : Bool) (E : Engine D) : List Event :=
  [ .cout "Successfully opened SQLite database",
    .sqlite3_libversion,
    .cout ("SQLite version: " ++ E.libversion),
    .cout (if nds then "Using NDS SQLite backend" else "Using public SQLite backend") ]

/-- Lines 83-90: the FTS5 probe. -/
def fts5Probe (E : Engine D) : List Event :=
  Event.sqlite3_exec fts5SQL ::
    (if E.fts5.rc = SQLITE_OK then
      [ .cout "\nFTS5 extension is available and working" ]
    else
      [ .cout ("\nFTS5 extension test: " ++ E.fts5.errMsg),
        .sqlite3_free E.fts5.errMsg ])

/-- Lines 93-103: the JSON1 probe. -/
def jsonProbe (E : Engine D) : List Event :=
  Event.sqlite3_prepare_v2 jsonSQL ::
    (if E.json_prepare_rc = SQLITE_OK then
      Event.sqlite3_step .json ::
        ((if E.json_step_rc = SQLITE_ROW then
          [ .sqlite3_column_text .json 0,
            .cout ("JSON1 extension is available, test result: " ++ E.json_text) ]
        else
          []) ++
        [ .sqlite3_finalize .json ])
    else
      [ .cout "JSON1 extension not available" ])

/-- Lines 5-110: `main`. -/
def main (nds : Bool) (fmt : D → String) (E : Engine D) : Option Run :=
  let t0 : List Event := [ .sqlite3_open ":memory:" ]
  if E.open_rc ≠ SQLITE_OK then
    some ⟨t0 ++ [ .sqlite3_errmsg, .cerr ("Can\x27t open database: " ++ E.open_errmsg) ], 1⟩
  else
    let t1 := t0 ++ banner nds E ++ [ .sqlite3_exec createTableSQL ]
    if E.createTable.rc ≠ SQLITE_OK then
      some ⟨t1 ++ [ .cerr ("SQL error: " ++ E.createTable.errMsg),
                    .sqlite3_free E.createTable.errMsg,
                    .sqlite3_close ], 1⟩
    else
      let t2 := t1 ++ [ .cout "Created test table", .sqlite3_exec insertSQL ]
      if E.insert.rc ≠ SQLITE_OK then
        some ⟨t2 ++ [ .cerr ("SQL error: " ++ E.insert.errMsg),
                      .sqlite3_free E.insert.errMsg,
                      .sqlite3_close ], 1⟩
      else
        let t3 := t2 ++ [ .cout "Inserted test data", .sqlite3_prepare_v2 selectSQL ]
        if E.select_prepare_rc ≠ SQLITE_OK then
          some ⟨t3 ++ [ .sqlite3_errmsg,
                        .cerr ("Failed to prepare statement: " ++ E.select_errmsg),
                        .sqlite3_close ], 1⟩
        else
          match queryLoop fmt E.select_steps with
          | none => none
          | some loop =>
            some ⟨t3 ++ [ .cout "\nQuery results:" ] ++ loop ++
                    [ .sqlite3_finalize .select ] ++
                    fts5Probe E ++ jsonProbe E ++
                    [ .sqlite3_close, .cout "\nDatabase closed successfully" ], 0⟩

end Program

/-! ## Vocabulary of the properties -/

section Vocabulary

variable {D : Type}

/-- The four required operations all succeed: `sqlite3_open`, the exec of
`createTableSQL`, the exec of `insertSQL` and the prepare of `selectSQL`. -/
def requiredOk (E : Engine D) : Prop :=
  E.open_rc = SQLITE_OK ∧ E.createTable.rc = SQLITE_OK ∧
    E.insert.rc = SQLITE_OK ∧ E.select_prepare_rc = SQLITE_OK

instance (E : Engine D) : Decidable (requiredOk E) := by
  unfold requiredOk; infer_instance

/-- The cursor of the `SELECT` eventually reports a status other than
`SQLITE_ROW`. -/
def cursorEnds (E : Engine D) : Prop :=
  ∃ s ∈ E.select_steps, s.rc ≠ SQLITE_ROW

/-- The lines written to standard output, in order. -/
def stdout : List Event → List String
  | [] => []
  | .cout text :: t => text :: stdout t
  | _ :: t => stdout t

/-- The lines written to standard error, in order. -/
def stderr : List Event → List String
  | [] => []
  | .cerr text :: t => text :: stderr t
  | _ :: t => stderr t

/-- The buffers passed to `sqlite3_free`, in order. -/
def freed : List Event → List String
  | [] => []
  | .sqlite3_free b :: t => b :: freed t
  | _ :: t => freed t

/-- The engine call takes the connection handle `db` as an argument
(`sqlite3_open` receives the address of the variable, not the handle). -/
def Event.usesDb : Event → Bool
  | .sqlite3_errmsg => true
  | .sqlite3_exec _ => true
  | .sqlite3_close => true
  | .sqlite3_prepare_v2 _ => true
  | _ => false

/-- The statement object an engine call takes as its argument, if any. -/
def Event.stmt? : Event → Option Stmt
  | .sqlite3_step s => some s
  | .sqlite3_column_text s _ => some s
  | .sqlite3_column_double s _ => some s
  | .sqlite3_finalize s => some s
  | _ => none

/-- The events of the `while` loop of lines 74-78 when the cursor delivers the
rows `rows` and then a status other than `SQLITE_ROW`: one step and one loop
body per row, then the step that ends the loop. -/
def loopTrace (fmt : D → String) (rows : List (StepResult D)) : List Event :=
  rows.flatMap (fun s => Event.sqlite3_step .select :: rowEvents fmt s) ++
    [Event.sqlite3_step .select]

/-- The events of lines 10-73 when every required operation succeeds. -/
def prologue (nds : Bool) (E : Engine D) : List Event :=
  [Event.sqlite3_open ":memory:"] ++ banner nds E ++
    [ .sqlite3_exec createTableSQL, .cout "Created test table",
      .sqlite3_exec insertSQL, .cout "Inserted test data",
      .sqlite3_prepare_v2 selectSQL, .cout "\nQuery results:" ]

/-- The events of lines 80-107. -/
def epilogue (E : Engine D) : List Event :=
  [Event.sqlite3_finalize .select] ++ fts5Probe E ++ jsonProbe E ++
    [ .sqlite3_close, .cout "\nDatabase closed successfully" ]

/-- The statement `s` is finalized exactly once in the trace `t`, no later
event takes it as an argument, and `sqlite3_close` is called after that
finalize and not before. -/
def finalizedOnce (s : Stmt) (t : List Event) : Prop :=
  t.count (Event.sqlite3_finalize s) = 1 ∧
  ∃ pre post, t = pre ++ Event.sqlite3_finalize s :: post ∧
    (∀ e ∈ post, e.stmt? ≠ some s) ∧
    Event.sqlite3_close ∉ pre ∧ Event.sqlite3_close ∈ post

/-- The text is a result-row line `  <name>: <value>` (line 77). -/
def isRowLine (fmt : D → String) (text : String) : Prop :=
  ∃ name value, text = rowLine fmt name value

/-- The text is one of the lines the two capability probes can print
(lines 86, 88, 98, 102). -/
def isProbeLine (text : String) : Prop :=
  text = "\nFTS5 extension is available and working" ∨
  (∃ m, text = "\nFTS5 extension test: " ++ m) ∨
  (∃ j, text = "JSON1 extension is available, test result: " ++ j) ∨
  text = "JSON1 extension not available"

/-- The required operation of step `k` of the sequence (1 open, 2 schema
creation, 3 insert, 4 prepare of the `SELECT`) fails, those before it having
succeeded. -/
def failsAt (E : Engine D) : Nat → Prop
  | 1 => E.open_rc ≠ SQLITE_OK
  | 2 => E.open_rc = SQLITE_OK ∧ E.createTable.rc ≠ SQLITE_OK
  | 3 => E.open_rc = SQLITE_OK ∧ E.createTable.rc = SQLITE_OK ∧
      E.insert.rc ≠ SQLITE_OK
  | 4 => E.open_rc = SQLITE_OK ∧ E.createTable.rc = SQLITE_OK ∧
      E.insert.rc = SQLITE_OK ∧ E.select_prepare_rc ≠ SQLITE_OK
  | _ => False

/-- The event is an engine operation or a standard-output line of step `j` of
the sequence (2 schema creation, 3 insert, 4 query, 5 capability probes,
6 close), the calls that only release a resource (`sqlite3_free`,
`sqlite3_close`) left aside.  Every call on a statement, `sqlite3_finalize`
included, counts for the step owning the statement.  The diagnostics of a
failing step (`sqlite3_errmsg`, the line on standard error) are the same
events whichever step issues them and are not attributed. -/
def belongsTo (fmt : D → String) : Nat → Event → Prop
  | 2, e => e = .sqlite3_exec createTableSQL ∨ e = .cout "Created test table"
  | 3, e => e = .sqlite3_exec insertSQL ∨ e = .cout "Inserted test data"
  | 4, e => e = .sqlite3_prepare_v2 selectSQL ∨ e.stmt? = some .select ∨
      e = .cout "\nQuery results:" ∨ ∃ text, e = .cout text ∧ isRowLine fmt text
  | 5, e => e = .sqlite3_exec fts5SQL ∨ e = .sqlite3_prepare_v2 jsonSQL ∨
      e.stmt? = some .json ∨ ∃ text, e = .cout text ∧ isProbeLine text
  | 6, e => e = .cout "\nDatabase closed successfully"
  | _, _ => False

/-- Some line of `lines` contains the text `diag`. -/
def reportsDiagnostic (diag : String) (lines : List String) : Prop :=
  ∃ text ∈ lines, diag.data <:+: text.data

instance (diag : String) (lines : List String) :
    Decidable (reportsDiagnostic diag lines) := by
  unfold reportsDiagnostic; infer_instance

/-- The first character of a text, if any. -/
def firstChar (s : String) : Option Char := s.data.head?

/-- The events of the run in which `sqlite3_open` fails (lines 10-13). -/
def openFailTrace (E : Engine D) : List Event :=
  [ .sqlite3_open ":memory:", .sqlite3_errmsg,
    .cerr ("Can\x27t open database: " ++ E.open_errmsg) ]

/-- The events of the run in which the exec of `createTableSQL` fails
(lines 10-40). -/
def createFailTrace (nds : Bool) (E : Engine D) : List Event :=
  [Event.sqlite3_open ":memory:"] ++ banner nds E ++
    [ .sqlite3_exec createTableSQL,
      .cerr ("SQL error: " ++ E.createTable.errMsg),
      .sqlite3_free E.createTable.errMsg, .sqlite3_close ]

/-- The events of the run in which the exec of `insertSQL` fails
(lines 10-57). -/
def insertFailTrace (nds : Bool) (E : Engine D) : List Event :=
  [Event.sqlite3_open ":memory:"] ++ banner nds E ++
    [ .sqlite3_exec createTableSQL, .cout "Created test table",
      .sqlite3_exec insertSQL,
      .cerr ("SQL error: " ++ E.insert.errMsg),
      .sqlite3_free E.insert.errMsg, .sqlite3_close ]

/-- The events of the run in which the prepare of `selectSQL` fails
(lines 10-70). -/
def prepareFailTrace (nds : Bool) (E : Engine D) : List Event :=
  [Event.sqlite3_open ":memory:"] ++ banner nds E ++
    [ .sqlite3_exec createTableSQL, .cout "Created test table",
      .sqlite3_exec insertSQL, .cout "Inserted test data",
      .sqlite3_prepare_v2 selectSQL, .sqlite3_errmsg,
      .cerr ("Failed to prepare statement: " ++ E.select_errmsg),
      .sqlite3_close ]

/-- Two engine behaviours agree on the results of the required operations:
the open, the two required execs, the prepare of the `SELECT` and its stepping
(and the diagnostics and version text that go with them).  Only the results of
the two capability probes may differ. -/
def agreeOnRequired (E1 E2 : Engine D) : Prop :=
  E1.open_rc = E2.open_rc ∧ E1.open_errmsg = E2.open_errmsg ∧
  E1.libversion = E2.libversion ∧
  E1.createTable.rc = E2.createTable.rc ∧
  E1.createTable.errMsg = E2.createTable.errMsg ∧
  E1.insert.rc = E2.insert.rc ∧ E1.insert.errMsg = E2.insert.errMsg ∧
  E1.select_prepare_rc = E2.select_prepare_rc ∧
  E1.select_errmsg = E2.select_errmsg ∧
  E1.select_steps = E2.select_steps

end Vocabulary

/-! ## Concrete engine behaviours

In these the `double` values are given by their decimal text and rendered as
such (`D := String`, `fmt := id`). -/

/-- A fresh in-memory database of an engine built with FTS5 and JSON1. -/
def freshDatabase : Engine String where
  open_rc := SQLITE_OK
  open_errmsg := "not an error"
  libversion := "3.45.1"
  createTable := ⟨SQLITE_OK, ""⟩
  insert := ⟨SQLITE_OK, ""⟩
  select_prepare_rc := SQLITE_OK
  select_errmsg := "not an error"
  select_steps :=
    [ ⟨SQLITE_ROW, "Alice", "3.14"⟩, ⟨SQLITE_ROW, "Bob", "2.71"⟩,
      ⟨SQLITE_ROW, "Charlie", "1.41"⟩, ⟨SQLITE_DONE, "", ""⟩ ]
  fts5 := ⟨SQLITE_OK, ""⟩
  json_prepare_rc := SQLITE_OK
  json_errmsg := "not an error"
  json_step_rc := SQLITE_ROW
  json_text := "[1,2,3]"

/-- The same engine built without FTS5 and without JSON1. -/
def noExtensions : Engine String :=
  { freshDatabase with
    fts5 := ⟨SQLITE_ERROR, "no such module: fts5"⟩
    json_prepare_rc := SQLITE_ERROR
    json_errmsg := "no such function: json_array" }

/-- An engine whose `sqlite3_open` fails. -/
def cantOpen : Engine String :=
  { freshDatabase with
    open_rc := SQLITE_CANTOPEN
    open_errmsg := "unable to open database file" }

/-- An engine on which the creation of table `test` fails. -/
def schemaFails : Engine String :=
  { freshDatabase with
    createTable := ⟨SQLITE_ERROR, "table test already exists"⟩ }

/-! ## Basic facts about the embedding -/

section Basic

variable {D : Type}

theorem queryLoop_rows (fmt : D → String) (rows : List (StepResult D))
    (final : StepResult D) (rest : List (StepResult D))
    (hrows : ∀ s ∈ rows, s.rc = SQLITE_ROW) (hfinal : final.rc ≠ SQLITE_ROW) :
    queryLoop fmt (rows ++ final :: rest) = some (loopTrace fmt rows) := by
  induction rows with
  | nil => simp [queryLoop, loopTrace, hfinal]
  | cons s rows ih =>
    have hs : s.rc = SQLITE_ROW := hrows s (List.mem_cons_self _ _)
    have ih2 := ih (fun x hx => hrows x (List.mem_cons_of_mem _ hx))
    simp [queryLoop, hs, ih2, loopTrace]

theorem cursor_split (steps : List (StepResult D))
    (h : ∃ s ∈ steps, s.rc ≠ SQLITE_ROW) :
    ∃ rows final rest, steps = rows ++ final :: rest ∧
      (∀ s ∈ rows, s.rc = SQLITE_ROW) ∧ final.rc ≠ SQLITE_ROW := by
  induction steps with
  | nil => simp at h
  | cons s steps ih =>
    by_cases hs : s.rc = SQLITE_ROW
    · have h2 : ∃ x ∈ steps, x.rc ≠ SQLITE_ROW := by
        obtain ⟨x, hx, hne⟩ := h
        rcases List.mem_cons.mp hx with rfl | hx
        · exact absurd hs hne
        · exact ⟨x, hx, hne⟩
      obtain ⟨rows, final, rest, he, hr, hf⟩ := ih h2
      refine ⟨s :: rows, final, rest, by simp [he], ?_, hf⟩
      intro x hx
      rcases List.mem_cons.mp hx with rfl | hx
      · exact hs
      · exact hr x hx
    · exact ⟨[], s, steps, by simp, by simp, hs⟩

theorem main_open_fail (nds : Bool) (fmt : D → String) (E : Engine D)
    (h : E.open_rc ≠ SQLITE_OK) :
    main nds fmt E = some ⟨openFailTrace E, 1⟩ := by
  simp [main, h, openFailTrace]

theorem main_create_fail (nds : Bool) (fmt : D → String) (E : Engine D)
    (h1 : E.open_rc = SQLITE_OK) (h2 : E.createTable.rc ≠ SQLITE_OK) :
    main nds fmt E = some ⟨createFailTrace nds E, 1⟩ := by
  simp [main, h1, h2, createFailTrace]

theorem main_insert_fail (nds : Bool) (fmt : D → String) (E : Engine D)
    (h1 : E.open_rc = SQLITE_OK) (h2 : E.createTable.rc = SQLITE_OK)
    (h3 : E.insert.rc ≠ SQLITE_OK) :
    main nds fmt E = some ⟨insertFailTrace nds E, 1⟩ := by
  simp [main, h1, h2, h3, insertFailTrace]

theorem main_prepare_fail (nds : Bool) (fmt : D → String) (E : Engine D)
    (h1 : E.open_rc = SQLITE_OK) (h2 : E.createTable.rc = SQLITE_OK)
    (h3 : E.insert.rc = SQLITE_OK) (h4 : E.select_prepare_rc ≠ SQLITE_OK) :
    main nds fmt E = some ⟨prepareFailTrace nds E, 1⟩ := by
  simp [main, h1, h2, h3, h4, prepareFailTrace]

theorem main_ok (nds : Bool) (fmt : D → String) (E : Engine D)
    (rows : List (StepResult D)) (final : StepResult D) (rest : List (StepResult D))
    (hreq : requiredOk E) (hsteps : E.select_steps = rows ++ final :: rest)
    (hrows : ∀ s ∈ rows, s.rc = SQLITE_ROW) (hfinal : final.rc ≠ SQLITE_ROW) :
    main nds fmt E = some ⟨prologue nds E ++ loopTrace fmt rows ++ epilogue E, 0⟩ := by
  obtain ⟨h1, h2, h3, h4⟩ := hreq
  simp [main, h1, h2, h3, h4, hsteps, queryLoop_rows fmt rows final rest hrows hfinal,
    prologue, epilogue]

/-- Every run falls in one of five cases, each with an explicit outcome. -/
theorem main_cases (nds : Bool) (fmt : D → String) (E : Engine D)
    (h : requiredOk E → cursorEnds E) :
    (¬ requiredOk E ∧ ∃ t, main nds fmt E = some ⟨t, 1⟩) ∨
    (requiredOk E ∧ ∃ rows, (∀ s ∈ rows, s.rc = SQLITE_ROW) ∧
      main nds fmt E = some ⟨prologue nds E ++ loopTrace fmt rows ++ epilogue E, 0⟩) := by
  by_cases h1 : E.open_rc = SQLITE_OK
  · by_cases h2 : E.createTable.rc = SQLITE_OK
    · by_cases h3 : E.insert.rc = SQLITE_OK
      · by_cases h4 : E.select_prepare_rc = SQLITE_OK
        · have hreq : requiredOk E := ⟨h1, h2, h3, h4⟩
          obtain ⟨rows, final, rest, hs, hr, hf⟩ := cursor_split _ (h hreq)
          exact Or.inr ⟨hreq, rows, hr, main_ok nds fmt E rows final rest hreq hs hr hf⟩
        · exact Or.inl ⟨fun hr => h4 hr.2.2.2, _, main_prepare_fail nds fmt E h1 h2 h3 h4⟩
      · exact Or.inl ⟨fun hr => h3 hr.2.2.1, _, main_insert_fail nds fmt E h1 h2 h3⟩
    · exact Or.inl ⟨fun hr => h2 hr.2.1, _, main_create_fail nds fmt E h1 h2⟩
  · exact Or.inl ⟨fun hr => h1 hr.1, _, main_open_fail nds fmt E h1⟩

theorem queryLoop_all_rows (fmt : D → String) (steps : List (StepResult D))
    (h : ∀ s ∈ steps, s.rc = SQLITE_ROW) : queryLoop fmt steps = none := by
  induction steps with
  | nil => rfl
  | cons s steps ih =>
    have hs : s.rc = SQLITE_ROW := h s (List.mem_cons_self _ _)
    simp [queryLoop, hs, ih (fun x hx => h x (List.mem_cons_of_mem _ hx))]

/-- The run is undetermined exactly when every required operation succeeds
and the cursor delivers rows for as long as it is asked. -/
theorem main_eq_none_iff (nds : Bool) (fmt : D → String) (E : Engine D) :
    main nds fmt E = none ↔ requiredOk E ∧ ¬ cursorEnds E := by
  constructor
  · intro hn
    by_contra hc
    have h : requiredOk E → cursorEnds E := by
      intro hr
      by_contra hne
      exact hc ⟨hr, hne⟩
    rcases main_cases nds fmt E h with ⟨_, t, ht⟩ | ⟨_, rows, _, ht⟩ <;>
      simp [hn] at ht
  · rintro ⟨⟨h1, h2, h3, h4⟩, hc⟩
    have hall : ∀ s ∈ E.select_steps, s.rc = SQLITE_ROW := by
      intro s hs
      by_contra hne
      exact hc ⟨s, hs, hne⟩
    simp [main, h1, h2, h3, h4, queryLoop_all_rows fmt _ hall]

/-- The five paths through `main`. -/
theorem main_paths (nds : Bool) (fmt : D → String) (E : Engine D)
    (h : requiredOk E → cursorEnds E) :
    (E.open_rc ≠ SQLITE_OK ∧ main nds fmt E = some ⟨openFailTrace E, 1⟩) ∨
    (E.open_rc = SQLITE_OK ∧ E.createTable.rc ≠ SQLITE_OK ∧
      main nds fmt E = some ⟨createFailTrace nds E, 1⟩) ∨
    (E.open_rc = SQLITE_OK ∧ E.createTable.rc = SQLITE_OK ∧
      E.insert.rc ≠ SQLITE_OK ∧
      main nds fmt E = some ⟨insertFailTrace nds E, 1⟩) ∨
    (E.open_rc = SQLITE_OK ∧ E.createTable.rc = SQLITE_OK ∧
      E.insert.rc = SQLITE_OK ∧ E.select_prepare_rc ≠ SQLITE_OK ∧
      main nds fmt E = some ⟨prepareFailTrace nds E, 1⟩) ∨
    (requiredOk E ∧ ∃ rows final rest,
      E.select_steps = rows ++ final :: rest ∧
      (∀ s ∈ rows, s.rc = SQLITE_ROW) ∧ final.rc ≠ SQLITE_ROW ∧
      main nds fmt E = some ⟨prologue nds E ++ loopTrace fmt rows ++ epilogue E, 0⟩) := by
  by_cases h1 : E.open_rc = SQLITE_OK
  · by_cases h2 : E.createTable.rc = SQLITE_OK
    · by_cases h3 : E.insert.rc = SQLITE_OK
      · by_cases h4 : E.select_prepare_rc = SQLITE_OK
        · have hreq : requiredOk E := ⟨h1, h2, h3, h4⟩
          obtain ⟨rows, final, rest, hs, hr, hf⟩ := cursor_split _ (h hreq)
          exact Or.inr (Or.inr (Or.inr (Or.inr ⟨hreq, rows, final, rest, hs, hr, hf,
            main_ok nds fmt E rows final rest hreq hs hr hf⟩)))
        · exact Or.inr (Or.inr (Or.inr (Or.inl
            ⟨h1, h2, h3, h4, main_prepare_fail nds fmt E h1 h2 h3 h4⟩)))
      · exact Or.inr (Or.inr (Or.inl ⟨h1, h2, h3, main_insert_fail nds fmt E h1 h2 h3⟩))
    · exact Or.inr (Or.inl ⟨h1, h2, main_create_fail nds fmt E h1 h2⟩)
  · exact Or.inl ⟨h1, main_open_fail nds fmt E h1⟩

theorem stdout_append (a b : List Event) : stdout (a ++ b) = stdout a ++ stdout b := by
  induction a with
  | nil => rfl
  | cons e a ih => cases e <;> simp [stdout, ih]

theorem stderr_append (a b : List Event) : stderr (a ++ b) = stderr a ++ stderr b := by
  induction a with
  | nil => rfl
  | cons e a ih => cases e <;> simp [stderr, ih]

theorem freed_append (a b : List Event) : freed (a ++ b) = freed a ++ freed b := by
  induction a with
  | nil => rfl
  | cons e a ih => cases e <;> simp [freed, ih]

theorem mem_loopTrace (fmt : D → String) (rows : List (StepResult D)) (e : Event) :
    e ∈ loopTrace fmt rows ↔
      e = .sqlite3_step .select ∨ ∃ s ∈ rows, e ∈ rowEvents fmt s := by
  simp only [loopTrace, List.mem_append, List.mem_flatMap, List.mem_cons,
    List.mem_singleton, List.not_mem_nil, or_false]
  constructor
  · rintro (⟨s, hs, h | h⟩ | h)
    · exact Or.inl h
    · exact Or.inr ⟨s, hs, h⟩
    · exact Or.inl h
  · rintro (h | ⟨s, hs, h⟩)
    · exact Or.inr h
    · exact Or.inl ⟨s, hs, Or.inr h⟩

theorem loopTrace_cons (fmt : D → String) (s : StepResult D)
    (rows : List (StepResult D)) :
    loopTrace fmt (s :: rows) =
      Event.sqlite3_step .select :: (rowEvents fmt s ++ loopTrace fmt rows) := by
  simp [loopTrace]

theorem stdout_loopTrace (fmt : D → String) (rows : List (StepResult D)) :
    stdout (loopTrace fmt rows) =
      rows.map (fun s => rowLine fmt s.column_text0 s.column_double1) := by
  induction rows with
  | nil => rfl
  | cons s rows ih =>
    rw [loopTrace_cons]
    simp [rowEvents, stdout, ih]

theorem stderr_loopTrace (fmt : D → String) (rows : List (StepResult D)) :
    stderr (loopTrace fmt rows) = [] := by
  induction rows with
  | nil => rfl
  | cons s rows ih =>
    rw [loopTrace_cons]
    simp [rowEvents, stderr, ih]

theorem freed_loopTrace (fmt : D → String) (rows : List (StepResult D)) :
    freed (loopTrace fmt rows) = [] := by
  induction rows with
  | nil => rfl
  | cons s rows ih =>
    rw [loopTrace_cons]
    simp [rowEvents, freed, ih]

theorem count_step_loopTrace (fmt : D → String) (rows : List (StepResult D)) :
    (loopTrace fmt rows).count (Event.sqlite3_step .select) = rows.length + 1 := by
  induction rows with
  | nil => rfl
  | cons s rows ih =>
    rw [loopTrace_cons]
    simp only [rowEvents, List.cons_append, List.nil_append, List.length_cons]
    rw [List.count_cons_self, List.count_cons_of_ne (by simp),
      List.count_cons_of_ne (by simp), List.count_cons_of_ne (by simp), ih]

/-- Whatever follows some occurrence of `x` in a list follows its first
occurrence. -/
theorem suffix_after_first {α : Type} (x : α) (pre0 post0 pre post : List α)
    (hx : x ∉ pre0) (h : pre0 ++ x :: post0 = pre ++ x :: post) :
    ∃ c, post0 = c ++ post := by
  rcases List.append_eq_append_iff.mp h with ⟨a, ha, hb⟩ | ⟨c, hc, hd⟩
  · cases a with
    | nil => simp at hb; exact ⟨[], by simp [hb]⟩
    | cons y a =>
      simp only [List.cons_append, List.cons.injEq] at hb
      exact ⟨a ++ [x], by simp [hb.2]⟩
  · cases c with
    | nil => simp at hd; exact ⟨[], by simp [hd]⟩
    | cons y c =>
      simp only [List.cons_append, List.cons.injEq] at hd
      exact absurd (by rw [hc, ← hd.1]; simp) hx

theorem close_not_mem_loopTrace (fmt : D → String) (rows : List (StepResult D)) :
    Event.sqlite3_close ∉ loopTrace fmt rows := by
  simp [mem_loopTrace, rowEvents]

/-- The successful run, cut at its only `sqlite3_close`. -/
theorem ok_trace_cut (nds : Bool) (fmt : D → String) (E : Engine D)
    (rows : List (StepResult D)) :
    prologue nds E ++ loopTrace fmt rows ++ epilogue E =
      (prologue nds E ++ loopTrace fmt rows ++ [Event.sqlite3_finalize .select] ++
        fts5Probe E ++ jsonProbe E) ++
      Event.sqlite3_close :: [Event.cout "\nDatabase closed successfully"] := by
  simp [epilogue]

theorem close_not_mem_before (nds : Bool) (fmt : D → String) (E : Engine D)
    (rows : List (StepResult D)) :
    Event.sqlite3_close ∉
      prologue nds E ++ loopTrace fmt rows ++ [Event.sqlite3_finalize .select] ++
        fts5Probe E ++ jsonProbe E := by
  simp only [List.mem_append, not_or]
  refine ⟨⟨⟨⟨?_, close_not_mem_loopTrace fmt rows⟩, by simp⟩, ?_⟩, ?_⟩
  · simp [prologue, banner]
  · unfold fts5Probe; split <;> simp
  · unfold jsonProbe; split <;> [split; skip] <;> simp

/-- The three other early exits and the normal exit call `sqlite3_close`
exactly once. -/
theorem close_once_after_open (nds : Bool) (fmt : D → String) (E : Engine D)
    (h : requiredOk E → cursorEnds E) (hopen : E.open_rc = SQLITE_OK) :
    ∃ r, main nds fmt E = some r ∧ r.trace.count Event.sqlite3_close = 1 := by
  have hb : (banner nds E).count Event.sqlite3_close = 0 := by
    rw [List.count_eq_zero]; simp [banner]
  rcases main_paths nds fmt E h with ⟨h1, _⟩ | ⟨_, _, hm⟩ | ⟨_, _, _, hm⟩ |
      ⟨_, _, _, _, hm⟩ | ⟨_, rows, _, _, _, _, _, hm⟩
  · exact absurd hopen h1
  · refine ⟨_, hm, ?_⟩
    simp [createFailTrace, List.count_append, hb, List.count_cons]
  · refine ⟨_, hm, ?_⟩
    simp [insertFailTrace, List.count_append, hb, List.count_cons]
  · refine ⟨_, hm, ?_⟩
    simp [prepareFailTrace, List.count_append, hb, List.count_cons]
  · refine ⟨_, hm, ?_⟩
    rw [ok_trace_cut, List.count_append,
      List.count_eq_zero.mpr (close_not_mem_before nds fmt E rows)]
    simp [List.count_cons]

/-- If the first `sqlite3_close` of a trace is followed only by events that do
not take `db`, then so is every `sqlite3_close` of the trace. -/
theorem no_db_after_close_of_cut (t pre0 post0 : List Event)
    (ht : t = pre0 ++ Event.sqlite3_close :: post0)
    (hpre : Event.sqlite3_close ∉ pre0) (hpost : ∀ e ∈ post0, e.usesDb = false) :
    ∀ pre post, t = pre ++ Event.sqlite3_close :: post →
      ∀ e ∈ post, e.usesDb = false := by
  intro pre post h e he
  obtain ⟨c, hc⟩ := suffix_after_first Event.sqlite3_close pre0 post0 pre post hpre
    (by rw [← ht, h])
  exact hpost e (by rw [hc]; exact List.mem_append_right _ he)

theorem stmt_not_mem_prologue (nds : Bool) (E : Engine D) :
    ∀ e ∈ prologue nds E, e.stmt? = none := by
  simp [prologue, banner, Event.stmt?]

theorem stmt_loopTrace (fmt : D → String) (rows : List (StepResult D)) :
    ∀ e ∈ loopTrace fmt rows, e ≠ .sqlite3_finalize .select ∧ e.stmt? ≠ some .json := by
  intro e he
  rcases (mem_loopTrace fmt rows e).mp he with rfl | ⟨s, _, hs⟩
  · simp [Event.stmt?]
  · simp only [rowEvents, List.mem_cons, List.mem_singleton, List.not_mem_nil,
      or_false] at hs
    rcases hs with rfl | rfl | rfl <;> simp [Event.stmt?]

theorem stmt_fts5Probe (E : Engine D) : ∀ e ∈ fts5Probe E, e.stmt? = none := by
  unfold fts5Probe; split <;> simp [Event.stmt?]

theorem stmt_jsonProbe (E : Engine D) :
    ∀ e ∈ jsonProbe E, e.stmt? ≠ some .select := by
  unfold jsonProbe; split <;> [split; skip] <;> simp [Event.stmt?]

theorem count_eq_zero_of_stmt_none (s : Stmt) (t : List Event)
    (h : ∀ e ∈ t, e.stmt? ≠ some s) : t.count (Event.sqlite3_finalize s) = 0 := by
  rw [List.count_eq_zero]
  intro hm
  exact h _ hm rfl

theorem finalizedOnce_select_ok (nds : Bool) (fmt : D → String) (E : Engine D)
    (rows : List (StepResult D)) :
    finalizedOnce .select (prologue nds E ++ loopTrace fmt rows ++ epilogue E) := by
  constructor
  · have h1 : (prologue nds E).count (Event.sqlite3_finalize .select) = 0 :=
      count_eq_zero_of_stmt_none _ _ (fun e he => by simp [stmt_not_mem_prologue nds E e he])
    have h2 : (loopTrace fmt rows).count (Event.sqlite3_finalize .select) = 0 := by
      rw [List.count_eq_zero]
      exact fun hm => (stmt_loopTrace fmt rows _ hm).1 rfl
    have h3 : (fts5Probe E).count (Event.sqlite3_finalize .select) = 0 :=
      count_eq_zero_of_stmt_none _ _ (fun e he => by simp [stmt_fts5Probe E e he])
    have h4 : (jsonProbe E).count (Event.sqlite3_finalize .select) = 0 :=
      count_eq_zero_of_stmt_none _ _ (stmt_jsonProbe E)
    simp [epilogue, List.count_append, h1, h2, h3, h4, List.count_cons]
  · refine ⟨prologue nds E ++ loopTrace fmt rows,
      fts5Probe E ++ jsonProbe E ++
        [Event.sqlite3_close, Event.cout "\nDatabase closed successfully"],
      by simp [epilogue], ?_, ?_, by simp⟩
    · intro e he
      simp only [List.mem_append, List.mem_cons, List.mem_singleton,
        List.not_mem_nil, or_false] at he
      rcases he with (he | he) | rfl | rfl
      · simp [stmt_fts5Probe E e he]
      · exact stmt_jsonProbe E e he
      · simp [Event.stmt?]
      · simp [Event.stmt?]
    · simp only [List.mem_append, not_or]
      exact ⟨by simp [prologue, banner], close_not_mem_loopTrace fmt rows⟩

theorem finalizedOnce_json_ok (nds : Bool) (fmt : D → String) (E : Engine D)
    (rows : List (StepResult D)) (hj : E.json_prepare_rc = SQLITE_OK) :
    finalizedOnce .json (prologue nds E ++ loopTrace fmt rows ++ epilogue E) := by
  constructor
  · have h1 : (prologue nds E).count (Event.sqlite3_finalize .json) = 0 :=
      count_eq_zero_of_stmt_none _ _ (fun e he => by simp [stmt_not_mem_prologue nds E e he])
    have h2 : (loopTrace fmt rows).count (Event.sqlite3_finalize .json) = 0 :=
      count_eq_zero_of_stmt_none _ _ (fun e he => (stmt_loopTrace fmt rows e he).2)
    have h3 : (fts5Probe E).count (Event.sqlite3_finalize .json) = 0 :=
      count_eq_zero_of_stmt_none _ _ (fun e he => by simp [stmt_fts5Probe E e he])
    have h4 : (jsonProbe E).count (Event.sqlite3_finalize .json) = 1 := by
      unfold jsonProbe
      rw [if_pos hj]
      split <;> simp [List.count_cons]
    simp [epilogue, List.count_append, h1, h2, h3, h4, List.count_cons]
  · refine ⟨prologue nds E ++ loopTrace fmt rows ++ [Event.sqlite3_finalize .select] ++
        fts5Probe E ++
        (Event.sqlite3_prepare_v2 jsonSQL :: Event.sqlite3_step .json ::
          (if E.json_step_rc = SQLITE_ROW then
            [ .sqlite3_column_text .json 0,
              .cout ("JSON1 extension is available, test result: " ++ E.json_text) ]
          else [])),
      [Event.sqlite3_close, Event.cout "\nDatabase closed successfully"],
      by simp [epilogue, jsonProbe, hj], by simp [Event.stmt?], ?_, by simp⟩
    simp only [List.mem_append, not_or]
    refine ⟨⟨⟨⟨by simp [prologue, banner], close_not_mem_loopTrace fmt rows⟩, by simp⟩, ?_⟩, ?_⟩
    · unfold fts5Probe; split <;> simp
    · split <;> simp

theorem no_json_stmt_ok (nds : Bool) (fmt : D → String) (E : Engine D)
    (rows : List (StepResult D)) (hj : E.json_prepare_rc ≠ SQLITE_OK) :
    ∀ e ∈ prologue nds E ++ loopTrace fmt rows ++ epilogue E, e.stmt? ≠ some .json := by
  intro e he
  simp only [epilogue, List.mem_append, List.mem_cons, List.mem_singleton,
    List.not_mem_nil, or_false] at he
  rcases he with (he | he) | ((rfl | he) | he) | rfl | rfl
  · simp [stmt_not_mem_prologue nds E e he]
  · exact (stmt_loopTrace fmt rows e he).2
  · simp [Event.stmt?]
  · simp [stmt_fts5Probe E e he]
  · unfold jsonProbe at he
    rw [if_neg hj] at he
    simp only [List.mem_cons, List.mem_singleton, List.not_mem_nil, or_false] at he
    rcases he with rfl | rfl <;> simp [Event.stmt?]
  · simp [Event.stmt?]
  · simp [Event.stmt?]

theorem no_stmt_on_failure (nds : Bool) (E : Engine D) :
    (∀ e ∈ openFailTrace E, e.stmt? = none) ∧
    (∀ e ∈ createFailTrace nds E, e.stmt? = none) ∧
    (∀ e ∈ insertFailTrace nds E, e.stmt? = none) ∧
    (∀ e ∈ prepareFailTrace nds E, e.stmt? = none) := by
  refine ⟨?_, ?_, ?_, ?_⟩ <;>
    simp [openFailTrace, createFailTrace, insertFailTrace, prepareFailTrace, banner,
      Event.stmt?]

theorem freed_banner (nds : Bool) (E : Engine D) : freed (banner nds E) = [] := by
  simp [banner, freed]

theorem freed_prologue (nds : Bool) (E : Engine D) : freed (prologue nds E) = [] := by
  simp [prologue, freed_append, freed_banner, freed]

theorem freed_jsonProbe (E : Engine D) : freed (jsonProbe E) = [] := by
  unfold jsonProbe; split <;> [split; skip] <;> simp [freed]

theorem freed_fts5Probe (E : Engine D) :
    freed (fts5Probe E) = if E.fts5.rc = SQLITE_OK then [] else [E.fts5.errMsg] := by
  unfold fts5Probe; split <;> simp [freed]

theorem freed_ok (nds : Bool) (fmt : D → String) (E : Engine D)
    (rows : List (StepResult D)) :
    freed (prologue nds E ++ loopTrace fmt rows ++ epilogue E) =
      if E.fts5.rc = SQLITE_OK then [] else [E.fts5.errMsg] := by
  simp only [epilogue, freed_append, freed_prologue, freed_loopTrace, freed_jsonProbe,
    freed_fts5Probe, List.nil_append, List.append_nil]
  have e1 : freed [Event.sqlite3_finalize Stmt.select] = [] := rfl
  have e2 : freed [Event.sqlite3_close, Event.cout "\nDatabase closed successfully"] = [] :=
    rfl
  rw [e1, e2]
  simp

theorem ne_of_firstChar (a b : String) (h : firstChar a ≠ firstChar b) : a ≠ b :=
  fun e => h (congrArg firstChar e)

/-- A text that does not start with a blank, a newline or `J` is neither a
row line, nor the header of the results, nor a probe line, nor the closing
line. -/
theorem not_later_line (fmt : D → String) (text : String)
    (h1 : firstChar text ≠ some ' ') (h2 : firstChar text ≠ some '\n')
    (h3 : firstChar text ≠ some 'J') :
    ¬ isRowLine fmt text ∧ ¬ isProbeLine text ∧ text ≠ "\nQuery results:" ∧
      text ≠ "\nDatabase closed successfully" := by
  refine ⟨?_, ?_, ?_, ?_⟩
  · rintro ⟨n, v, rfl⟩
    exact h1 (by simp [firstChar, rowLine])
  · rintro (rfl | ⟨m, rfl⟩ | ⟨j, rfl⟩ | rfl)
    · exact h2 (by simp [firstChar])
    · exact h2 (by simp [firstChar])
    · exact h3 (by simp [firstChar])
    · exact h3 (by simp [firstChar])
  · rintro rfl
    exact h2 (by simp [firstChar])
  · rintro rfl
    exact h2 (by simp [firstChar])

theorem banner_lines (nds : Bool) (E : Engine D) :
    ∀ text ∈ stdout (banner nds E),
      (firstChar text = some 'S' ∨ firstChar text = some 'U') := by
  cases nds <;> simp [banner, stdout, firstChar]

theorem belongsTo_of_large (fmt : D → String) (j : Nat) (e : Event) (hj : 6 < j) :
    ¬ belongsTo fmt j e := by
  rcases j with _ | _ | _ | _ | _ | _ | _ | j
  all_goals first | omega | simp [belongsTo]

/-- Opening the database, reading a diagnostic or the version, writing to
standard error and releasing a buffer or the connection belong to none of the
steps 2 to 6. -/
theorem not_belongsTo_neutral (fmt : D → String) (e : Event)
    (he : e = .sqlite3_open ":memory:" ∨ e = .sqlite3_errmsg ∨
      e = .sqlite3_libversion ∨ e = .sqlite3_close ∨
      (∃ b, e = .sqlite3_free b) ∨ (∃ t, e = .cerr t)) (j : Nat) :
    ¬ belongsTo fmt j e := by
  rcases j with _ | _ | _ | _ | _ | _ | _ | j
  case succ.succ.succ.succ.succ.succ.succ => exact belongsTo_of_large fmt _ e (by omega)
  all_goals
    rcases he with rfl | rfl | rfl | rfl | ⟨b, rfl⟩ | ⟨t, rfl⟩ <;>
      simp [belongsTo, Event.stmt?]

/-- A line starting with `S` or `U` belongs to none of the steps 2 to 6. -/
theorem not_belongsTo_banner_line (fmt : D → String) (text : String)
    (h : firstChar text = some 'S' ∨ firstChar text = some 'U') (j : Nat) :
    ¬ belongsTo fmt j (.cout text) := by
  have hl := not_later_line fmt text (by rcases h with h | h <;> simp [h])
    (by rcases h with h | h <;> simp [h]) (by rcases h with h | h <;> simp [h])
  have h2 : text ≠ "Created test table" :=
    ne_of_firstChar _ _ (by rcases h with h | h <;> rw [h] <;> simp [firstChar])
  have h3 : text ≠ "Inserted test data" :=
    ne_of_firstChar _ _ (by rcases h with h | h <;> rw [h] <;> simp [firstChar])
  rcases j with _ | _ | _ | _ | _ | _ | _ | j
  case succ.succ.succ.succ.succ.succ.succ => exact belongsTo_of_large fmt _ _ (by omega)
  all_goals simp [belongsTo, Event.stmt?, h2, h3, hl.1, hl.2.1, hl.2.2.1, hl.2.2.2]

theorem mem_stdout (t : List Event) (text : String) :
    text ∈ stdout t ↔ Event.cout text ∈ t := by
  induction t with
  | nil => simp [stdout]
  | cons e t ih => cases e <;> simp [stdout, ih]

theorem not_belongsTo_after_schema (fmt : D → String) (e : Event)
    (he : e = .sqlite3_exec createTableSQL ∨ e = .cout "Created test table")
    (j : Nat) (hj : 2 < j) : ¬ belongsTo fmt j e := by
  have hl := not_later_line fmt "Created test table" (by simp [firstChar])
    (by simp [firstChar]) (by simp [firstChar])
  rcases j with _ | _ | _ | _ | _ | _ | _ | j
  case succ.succ.succ.succ.succ.succ.succ => exact belongsTo_of_large fmt _ e (by omega)
  all_goals first
    | omega
    | (rcases he with rfl | rfl
       · simp [belongsTo, Event.stmt?]
         try decide
       · simp [belongsTo, Event.stmt?, hl.1, hl.2.1])

theorem not_belongsTo_after_insert (fmt : D → String) (e : Event)
    (he : e = .sqlite3_exec insertSQL ∨ e = .cout "Inserted test data")
    (j : Nat) (hj : 3 < j) : ¬ belongsTo fmt j e := by
  have hl := not_later_line fmt "Inserted test data" (by simp [firstChar])
    (by simp [firstChar]) (by simp [firstChar])
  rcases j with _ | _ | _ | _ | _ | _ | _ | j
  case succ.succ.succ.succ.succ.succ.succ => exact belongsTo_of_large fmt _ e (by omega)
  all_goals first
    | omega
    | (rcases he with rfl | rfl
       · simp [belongsTo, Event.stmt?]
         try decide
       · simp [belongsTo, Event.stmt?, hl.1, hl.2.1])

theorem not_belongsTo_after_prepare (fmt : D → String)
    (j : Nat) (hj : 4 < j) : ¬ belongsTo fmt j (.sqlite3_prepare_v2 selectSQL) := by
  rcases j with _ | _ | _ | _ | _ | _ | _ | j
  case succ.succ.succ.succ.succ.succ.succ => exact belongsTo_of_large fmt _ _ (by omega)
  all_goals first
    | omega
    | (simp [belongsTo, Event.stmt?]
       try decide)

theorem not_belongsTo_banner (nds : Bool) (fmt : D → String) (E : Engine D)
    (e : Event) (he : e ∈ banner nds E) (j : Nat) : ¬ belongsTo fmt j e := by
  simp only [banner, List.mem_cons, List.mem_singleton, List.not_mem_nil, or_false] at he
  rcases he with rfl | rfl | rfl | rfl
  · exact not_belongsTo_banner_line fmt _ (by simp [firstChar]) j
  · exact not_belongsTo_neutral fmt _ (by simp) j
  · exact not_belongsTo_banner_line fmt _ (by simp [firstChar]) j
  · exact not_belongsTo_banner_line fmt _ (by cases nds <;> simp [firstChar]) j

theorem not_belongsTo_openFail (fmt : D → String) (E : Engine D) :
    ∀ e ∈ openFailTrace E, ∀ j, 1 < j → ¬ belongsTo fmt j e := by
  intro e he j _
  simp only [openFailTrace, List.mem_cons, List.mem_singleton, List.not_mem_nil,
    or_false] at he
  rcases he with rfl | rfl | rfl <;> exact not_belongsTo_neutral fmt _ (by simp) j

theorem not_belongsTo_createFail (nds : Bool) (fmt : D → String) (E : Engine D) :
    ∀ e ∈ createFailTrace nds E, ∀ j, 2 < j → ¬ belongsTo fmt j e := by
  intro e he j hj
  simp only [createFailTrace, List.mem_append, List.mem_cons, List.mem_singleton,
    List.not_mem_nil, or_false] at he
  rcases he with (rfl | he) | rfl | rfl | rfl | rfl
  · exact not_belongsTo_neutral fmt _ (by simp) j
  · exact not_belongsTo_banner nds fmt E e he j
  · exact not_belongsTo_after_schema fmt _ (by simp) j hj
  · exact not_belongsTo_neutral fmt _ (by simp) j
  · exact not_belongsTo_neutral fmt _ (by simp) j
  · exact not_belongsTo_neutral fmt _ (by simp) j

theorem not_belongsTo_insertFail (nds : Bool) (fmt : D → String) (E : Engine D) :
    ∀ e ∈ insertFailTrace nds E, ∀ j, 3 < j → ¬ belongsTo fmt j e := by
  intro e he j hj
  simp only [insertFailTrace, List.mem_append, List.mem_cons, List.mem_singleton,
    List.not_mem_nil, or_false] at he
  rcases he with (rfl | he) | rfl | rfl | rfl | rfl | rfl | rfl
  · exact not_belongsTo_neutral fmt _ (by simp) j
  · exact not_belongsTo_banner nds fmt E e he j
  · exact not_belongsTo_after_schema fmt _ (by simp) j (by omega)
  · exact not_belongsTo_after_schema fmt _ (by simp) j (by omega)
  · exact not_belongsTo_after_insert fmt _ (by simp) j hj
  · exact not_belongsTo_neutral fmt _ (by simp) j
  · exact not_belongsTo_neutral fmt _ (by simp) j
  · exact not_belongsTo_neutral fmt _ (by simp) j

theorem not_belongsTo_prepareFail (nds : Bool) (fmt : D → String) (E : Engine D) :
    ∀ e ∈ prepareFailTrace nds E, ∀ j, 4 < j → ¬ belongsTo fmt j e := by
  intro e he j hj
  simp only [prepareFailTrace, List.mem_append, List.mem_cons, List.mem_singleton,
    List.not_mem_nil, or_false] at he
  rcases he with (rfl | he) | rfl | rfl | rfl | rfl | rfl | rfl | rfl | rfl
  · exact not_belongsTo_neutral fmt _ (by simp) j
  · exact not_belongsTo_banner nds fmt E e he j
  · exact not_belongsTo_after_schema fmt _ (by simp) j (by omega)
  · exact not_belongsTo_after_schema fmt _ (by simp) j (by omega)
  · exact not_belongsTo_after_insert fmt _ (by simp) j (by omega)
  · exact not_belongsTo_after_insert fmt _ (by simp) j (by omega)
  · exact not_belongsTo_after_prepare fmt j hj
  · exact not_belongsTo_neutral fmt _ (by simp) j
  · exact not_belongsTo_neutral fmt _ (by simp) j
  · exact not_belongsTo_neutral fmt _ (by simp) j

theorem stderr_banner (nds : Bool) (E : Engine D) : stderr (banner nds E) = [] := by
  simp [banner, stderr]

/-- What the absence of the events of steps 3, 4 and 5 says about the
standard output. -/
theorem stdout_of_not_belongsTo (fmt : D → String) (t : List Event)
    (h : ∀ e ∈ t, ∀ j, 2 < j → ¬ belongsTo fmt j e) :
    ∀ text ∈ stdout t, text ≠ "Inserted test data" ∧ text ≠ "\nQuery results:" ∧
      ¬ isRowLine fmt text ∧ ¬ isProbeLine text := by
  intro text ht
  have hm := (mem_stdout t text).mp ht
  have h3 := h _ hm 3 (by omega)
  have h4 := h _ hm 4 (by omega)
  have h5 := h _ hm 5 (by omega)
  simp only [belongsTo, Event.stmt?, Event.cout.injEq, not_or, not_exists, not_and] at h3 h4 h5
  exact ⟨h3.2, h4.2.2.1, h4.2.2.2 text rfl, h5.2.2.2 text rfl⟩

theorem stdout_banner (nds : Bool) (E : Engine D) :
    stdout (banner nds E) =
      [ "Successfully opened SQLite database", "SQLite version: " ++ E.libversion,
        if nds then "Using NDS SQLite backend" else "Using public SQLite backend" ] := by
  simp [banner, stdout]

theorem stdout_prologue (nds : Bool) (E : Engine D) :
    stdout (prologue nds E) =
      (stdout (banner nds E) ++ ["Created test table", "Inserted test data"]) ++
        ["\nQuery results:"] := by
  simp [prologue, stdout_append, stdout]

theorem stdout_fts5Probe (E : Engine D) :
    stdout (fts5Probe E) =
      [ if E.fts5.rc = SQLITE_OK then "\nFTS5 extension is available and working"
        else "\nFTS5 extension test: " ++ E.fts5.errMsg ] := by
  unfold fts5Probe; split <;> simp [stdout]

theorem stdout_jsonProbe (E : Engine D) :
    stdout (jsonProbe E) =
      if E.json_prepare_rc = SQLITE_OK then
        (if E.json_step_rc = SQLITE_ROW then
          ["JSON1 extension is available, test result: " ++ E.json_text]
        else [])
      else ["JSON1 extension not available"] := by
  unfold jsonProbe; split <;> [split; skip] <;> simp [stdout]

theorem stdout_epilogue (E : Engine D) :
    stdout (epilogue E) =
      stdout (fts5Probe E) ++ stdout (jsonProbe E) ++ ["\nDatabase closed successfully"] := by
  simp [epilogue, stdout_append, stdout]

theorem stdout_ok (nds : Bool) (fmt : D → String) (E : Engine D)
    (rows : List (StepResult D)) :
    stdout (prologue nds E ++ loopTrace fmt rows ++ epilogue E) =
      (stdout (banner nds E) ++ ["Created test table", "Inserted test data"]) ++
        "\nQuery results:" ::
          (rows.map (fun s => rowLine fmt s.column_text0 s.column_double1) ++
            stdout (epilogue E)) := by
  simp [stdout_append, stdout_prologue, stdout_loopTrace]

theorem not_rowLine_before (nds : Bool) (fmt : D → String) (E : Engine D) :
    ∀ text ∈ stdout (banner nds E) ++ ["Created test table", "Inserted test data"],
      ¬ isRowLine fmt text := by
  intro text ht
  rcases List.mem_append.mp ht with h | h
  · have := banner_lines nds E text h
    exact (not_later_line fmt text (by rcases this with h | h <;> simp [h])
      (by rcases this with h | h <;> simp [h]) (by rcases this with h | h <;> simp [h])).1
  · simp only [List.mem_cons, List.mem_singleton, List.not_mem_nil, or_false] at h
    rcases h with rfl | rfl <;>
      exact (not_later_line fmt _ (by simp [firstChar]) (by simp [firstChar])
        (by simp [firstChar])).1

theorem not_rowLine_after (fmt : D → String) (E : Engine D) :
    ∀ text ∈ stdout (epilogue E), ¬ isRowLine fmt text := by
  intro text ht
  rintro ⟨n, v, rfl⟩
  have hf : firstChar (rowLine fmt n v) = some ' ' := by simp [firstChar, rowLine]
  rw [stdout_epilogue, stdout_fts5Probe, stdout_jsonProbe] at ht
  simp only [List.mem_append, List.mem_singleton] at ht
  rcases ht with (ht | ht) | ht
  · split at ht <;> (rw [ht] at hf; simp [firstChar] at hf)
  · split at ht
    · split at ht
      · rw [List.mem_singleton.mp ht] at hf; simp [firstChar] at hf
      · simp at ht
    · rw [List.mem_singleton.mp ht] at hf; simp [firstChar] at hf
  · rw [ht] at hf; simp [firstChar] at hf

theorem count_step_ok (nds : Bool) (fmt : D → String) (E : Engine D)
    (rows : List (StepResult D)) :
    (prologue nds E ++ loopTrace fmt rows ++ epilogue E).count
      (Event.sqlite3_step .select) = rows.length + 1 := by
  have h1 : (prologue nds E).count (Event.sqlite3_step .select) = 0 := by
    rw [List.count_eq_zero]
    intro hm
    simpa [Event.stmt?] using stmt_not_mem_prologue nds E _ hm
  have h2 : (epilogue E).count (Event.sqlite3_step .select) = 0 := by
    rw [List.count_eq_zero]
    intro hm
    simp only [epilogue, List.mem_append, List.mem_cons, List.mem_singleton,
      List.not_mem_nil, or_false] at hm
    rcases hm with ((hm | hm) | hm) | hm | hm
    · cases hm
    · simpa [Event.stmt?] using stmt_fts5Probe E _ hm
    · exact stmt_jsonProbe E _ hm rfl
    · cases hm
    · cases hm
  rw [List.count_append, List.count_append, h1, h2, count_step_loopTrace]
  omega

end Basic

/-! ## The claims -/

section Claims

variable {D : Type}

/-- C1: whenever `main` runs to its end (a required operation fails, or the
cursor of the `SELECT` eventually stops delivering rows), it returns `0` if and
only if `sqlite3_open`, the `CREATE TABLE` exec, the `INSERT` exec and the
prepare of the `SELECT` all succeed, it returns `1` otherwise, and it never
returns anything else. -/
theorem exit_status_iff_required_ok (nds : Bool) (fmt : D → String) (E : Engine D)
    (h : requiredOk E → cursorEnds E) :
    ∃ r, main nds fmt E = some r ∧
      (r.exit = 0 ↔ requiredOk E) ∧ (r.exit = 1 ↔ ¬ requiredOk E) ∧
      (r.exit = 0 ∨ r.exit = 1) := by
  rcases main_cases nds fmt E h with ⟨hn, t, ht⟩ | ⟨hreq, rows, _, ht⟩
  · exact ⟨_, ht, by simp [hn], by simp [hn], Or.inr rfl⟩
  · exact ⟨_, ht, by simp [hreq], by simp [hreq], Or.inl rfl⟩

/-- Instance on a fresh database: every required operation succeeds and the exit status is `0`. -/
theorem exit_status_iff_required_ok_witness :
    (requiredOk freshDatabase → cursorEnds freshDatabase) ∧
    ∃ r, main false id freshDatabase = some r ∧
      (r.exit = 0 ↔ requiredOk freshDatabase) ∧
      (r.exit = 1 ↔ ¬ requiredOk freshDatabase) ∧
      (r.exit = 0 ∨ r.exit = 1) :=
  have h : requiredOk freshDatabase → cursorEnds freshDatabase :=
    fun _ => ⟨⟨SQLITE_DONE, "", ""⟩, by simp [freshDatabase], by decide⟩
  ⟨h, exit_status_iff_required_ok false id freshDatabase h⟩

/-- C2: two engine behaviours that agree on the results of the required
operations and differ only in what the FTS5 probe and the JSON1 probe get back
make `main` return the same exit status (and `main` does return in both, as
soon as it does in the first). -/
theorem probes_do_not_change_exit_status (nds : Bool) (fmt : D → String)
    (E1 E2 : Engine D) (hagree : agreeOnRequired E1 E2)
    (h : requiredOk E1 → cursorEnds E1) :
    ∃ r1 r2, main nds fmt E1 = some r1 ∧ main nds fmt E2 = some r2 ∧
      r1.exit = r2.exit := by
  obtain ⟨a1, _, _, a4, _, a6, _, a8, _, a10⟩ := hagree
  have hreq : requiredOk E1 ↔ requiredOk E2 := by
    simp only [requiredOk, a1, a4, a6, a8]
  have h2 : requiredOk E2 → cursorEnds E2 := by
    intro hr
    have := h (hreq.mpr hr)
    simpa [cursorEnds, a10] using this
  rcases main_cases nds fmt E1 h with ⟨hn, t, ht⟩ | ⟨hr, rows, _, ht⟩
  · rcases main_cases nds fmt E2 h2 with ⟨_, t2, ht2⟩ | ⟨hr2, _, _, _⟩
    · exact ⟨_, _, ht, ht2, rfl⟩
    · exact absurd (hreq.mpr hr2) hn
  · rcases main_cases nds fmt E2 h2 with ⟨hn2, _, _⟩ | ⟨_, rows2, _, ht2⟩
    · exact absurd (hreq.mp hr) hn2
    · exact ⟨_, _, ht, ht2, rfl⟩

/-- Instance on two engines that differ only in the extensions they were built with. -/
theorem probes_do_not_change_exit_status_witness :
    agreeOnRequired freshDatabase noExtensions ∧
    (requiredOk freshDatabase → cursorEnds freshDatabase) ∧
    ∃ r1 r2, main true id freshDatabase = some r1 ∧
      main true id noExtensions = some r2 ∧ r1.exit = r2.exit :=
  have ha : agreeOnRequired freshDatabase noExtensions := by
    simp [agreeOnRequired, noExtensions]
  have h : requiredOk freshDatabase → cursorEnds freshDatabase :=
    fun _ => ⟨⟨SQLITE_DONE, "", ""⟩, by simp [freshDatabase], by decide⟩
  ⟨ha, h, probes_do_not_change_exit_status true id freshDatabase noExtensions ha h⟩

/-- C3 (the code departs from the claim): when `sqlite3_open` fails, `main`
reads the diagnostic with `sqlite3_errmsg(db)`, writes it to standard error and
returns `1` without ever calling `sqlite3_close`. -/
theorem open_failure_returns_without_close :
    main false id cantOpen = some
      ⟨[ .sqlite3_open ":memory:", .sqlite3_errmsg,
         .cerr "Can\x27t open database: unable to open database file" ], 1⟩ ∧
    ∀ r, main false id cantOpen = some r →
      r.trace.count Event.sqlite3_close = 0 := by
  have h : main false id cantOpen = some
      ⟨[ .sqlite3_open ":memory:", .sqlite3_errmsg,
         .cerr "Can\x27t open database: unable to open database file" ], 1⟩ := by
    rw [main_open_fail false id cantOpen (by decide)]
    rfl
  refine ⟨h, ?_⟩
  intro r hr
  rw [h] at hr
  cases hr
  decide

/-- C10 (as amended): in every run of `main` no engine call takes the
connection handle after `sqlite3_close` has been called on it; and when
`sqlite3_open` returned a failure status the handle is passed to
`sqlite3_errmsg`, to read the diagnostic, and to no `sqlite3_exec` or
`sqlite3_prepare_v2` call. -/
theorem db_handle_usage (nds : Bool) (fmt : D → String) (E : Engine D)
    (h : requiredOk E → cursorEnds E) :
    ∃ r, main nds fmt E = some r ∧
      (∀ pre post, r.trace = pre ++ Event.sqlite3_close :: post →
        ∀ e ∈ post, e.usesDb = false) ∧
      (E.open_rc ≠ SQLITE_OK →
        Event.sqlite3_errmsg ∈ r.trace ∧
        ∀ e ∈ r.trace, (∀ sql, e ≠ .sqlite3_exec sql) ∧
          (∀ sql, e ≠ .sqlite3_prepare_v2 sql)) := by
  rcases main_paths nds fmt E h with ⟨h1, hm⟩ | ⟨h1, _, hm⟩ | ⟨h1, _, _, hm⟩ |
      ⟨h1, _, _, _, hm⟩ | ⟨hreq, rows, _, _, _, _, _, hm⟩
  · refine ⟨_, hm, ?_, fun _ => ?_⟩
    · intro pre post hp
      have : Event.sqlite3_close ∈ openFailTrace E := by
        rw [show openFailTrace E = pre ++ Event.sqlite3_close :: post from hp]; simp
      simp [openFailTrace] at this
    · simp [openFailTrace]
  · refine ⟨_, hm, ?_, fun hne => absurd h1 hne⟩
    exact no_db_after_close_of_cut _
      ([Event.sqlite3_open ":memory:"] ++ banner nds E ++
        [ .sqlite3_exec createTableSQL,
          .cerr ("SQL error: " ++ E.createTable.errMsg),
          .sqlite3_free E.createTable.errMsg ]) []
      (by simp [createFailTrace]) (by simp [banner]) (by simp)
  · refine ⟨_, hm, ?_, fun hne => absurd h1 hne⟩
    exact no_db_after_close_of_cut _
      ([Event.sqlite3_open ":memory:"] ++ banner nds E ++
        [ .sqlite3_exec createTableSQL, .cout "Created test table",
          .sqlite3_exec insertSQL,
          .cerr ("SQL error: " ++ E.insert.errMsg),
          .sqlite3_free E.insert.errMsg ]) []
      (by simp [insertFailTrace]) (by simp [banner]) (by simp)
  · refine ⟨_, hm, ?_, fun hne => absurd h1 hne⟩
    exact no_db_after_close_of_cut _
      ([Event.sqlite3_open ":memory:"] ++ banner nds E ++
        [ .sqlite3_exec createTableSQL, .cout "Created test table",
          .sqlite3_exec insertSQL, .cout "Inserted test data",
          .sqlite3_prepare_v2 selectSQL, .sqlite3_errmsg,
          .cerr ("Failed to prepare statement: " ++ E.select_errmsg) ]) []
      (by simp [prepareFailTrace]) (by simp [banner]) (by simp)
  · refine ⟨_, hm, ?_, fun hne => absurd hreq.1 hne⟩
    exact no_db_after_close_of_cut _ _ _ (ok_trace_cut nds fmt E rows)
      (close_not_mem_before nds fmt E rows) (by simp [Event.usesDb])

/-- Instance on an engine whose `sqlite3_open` fails. -/
theorem db_handle_usage_witness :
    (requiredOk cantOpen → cursorEnds cantOpen) ∧
    ∃ r, main false id cantOpen = some r ∧
      (∀ pre post, r.trace = pre ++ Event.sqlite3_close :: post →
        ∀ e ∈ post, e.usesDb = false) ∧
      (cantOpen.open_rc ≠ SQLITE_OK →
        Event.sqlite3_errmsg ∈ r.trace ∧
        ∀ e ∈ r.trace, (∀ sql, e ≠ .sqlite3_exec sql) ∧
          (∀ sql, e ≠ .sqlite3_prepare_v2 sql)) :=
  have h : requiredOk cantOpen → cursorEnds cantOpen :=
    fun _ => ⟨⟨SQLITE_DONE, "", ""⟩, by simp [cantOpen, freshDatabase], by decide⟩
  ⟨h, db_handle_usage false id cantOpen h⟩

/-- C10 (as stated, refuted): on the engine behaviour `cantOpen`, whose
`sqlite3_open` returns `SQLITE_CANTOPEN`, `main` makes an engine call that takes
the connection handle, namely `sqlite3_errmsg(db)`. -/
theorem db_handle_used_after_failed_open :
    cantOpen.open_rc ≠ SQLITE_OK ∧
    ∃ r, main false id cantOpen = some r ∧ ∃ e ∈ r.trace, e.usesDb = true := by
  refine ⟨by decide, _, main_open_fail false id cantOpen (by decide), ?_⟩
  exact ⟨Event.sqlite3_errmsg, by simp [openFailTrace], rfl⟩

/-- C8: in every run of `main`, a statement obtained from a successful
`sqlite3_prepare_v2` (the `SELECT` on table `test`, the `SELECT` of the JSON1
probe) is finalized exactly once, after the last step or column read on it
and before `sqlite3_close`; and when the prepare of a statement failed, or
was never reached, no call at all (in particular no `sqlite3_finalize`) is
made on that statement. -/
theorem statements_finalized_once (nds : Bool) (fmt : D → String) (E : Engine D)
    (h : requiredOk E → cursorEnds E) :
    ∃ r, main nds fmt E = some r ∧
      (requiredOk E → finalizedOnce .select r.trace) ∧
      (¬ requiredOk E → ∀ e ∈ r.trace, e.stmt? ≠ some .select) ∧
      (requiredOk E → E.json_prepare_rc = SQLITE_OK → finalizedOnce .json r.trace) ∧
      (¬ (requiredOk E ∧ E.json_prepare_rc = SQLITE_OK) →
        ∀ e ∈ r.trace, e.stmt? ≠ some .json) := by
  obtain ⟨f1, f2, f3, f4⟩ := no_stmt_on_failure nds E
  rcases main_paths nds fmt E h with ⟨h1, hm⟩ | ⟨_, h2, hm⟩ | ⟨_, _, h3, hm⟩ |
      ⟨_, _, _, h4, hm⟩ | ⟨hreq, rows, _, _, _, _, _, hm⟩
  · have hn : ¬ requiredOk E := fun hr => h1 hr.1
    exact ⟨_, hm, fun hr => absurd hr hn, fun _ e he => by simp [f1 e he],
      fun hr => absurd hr hn, fun _ e he => by simp [f1 e he]⟩
  · have hn : ¬ requiredOk E := fun hr => h2 hr.2.1
    exact ⟨_, hm, fun hr => absurd hr hn, fun _ e he => by simp [f2 e he],
      fun hr => absurd hr hn, fun _ e he => by simp [f2 e he]⟩
  · have hn : ¬ requiredOk E := fun hr => h3 hr.2.2.1
    exact ⟨_, hm, fun hr => absurd hr hn, fun _ e he => by simp [f3 e he],
      fun hr => absurd hr hn, fun _ e he => by simp [f3 e he]⟩
  · have hn : ¬ requiredOk E := fun hr => h4 hr.2.2.2
    exact ⟨_, hm, fun hr => absurd hr hn, fun _ e he => by simp [f4 e he],
      fun hr => absurd hr hn, fun _ e he => by simp [f4 e he]⟩
  · refine ⟨_, hm, fun _ => finalizedOnce_select_ok nds fmt E rows,
      fun hn => absurd hreq hn, fun _ hj => finalizedOnce_json_ok nds fmt E rows hj, ?_⟩
    intro hn
    exact no_json_stmt_ok nds fmt E rows (fun hj => hn ⟨hreq, hj⟩)

/-- Instance on a fresh database, where both statements are prepared. -/
theorem statements_finalized_once_witness :
    (requiredOk freshDatabase → cursorEnds freshDatabase) ∧
    ∃ r, main false id freshDatabase = some r ∧
      (requiredOk freshDatabase → finalizedOnce .select r.trace) ∧
      (¬ requiredOk freshDatabase → ∀ e ∈ r.trace, e.stmt? ≠ some .select) ∧
      (requiredOk freshDatabase → freshDatabase.json_prepare_rc = SQLITE_OK →
        finalizedOnce .json r.trace) ∧
      (¬ (requiredOk freshDatabase ∧ freshDatabase.json_prepare_rc = SQLITE_OK) →
        ∀ e ∈ r.trace, e.stmt? ≠ some .json) :=
  have h : requiredOk freshDatabase → cursorEnds freshDatabase :=
    fun _ => ⟨⟨SQLITE_DONE, "", ""⟩, by simp [freshDatabase], by decide⟩
  ⟨h, statements_finalized_once false id freshDatabase h⟩

/-- C9: in every run of `main`, each of the three `sqlite3_exec` calls
(`CREATE TABLE`, `INSERT`, `CREATE VIRTUAL TABLE`) that fails is followed, in
this order and with nothing in between, by the statement that prints its
diagnostic buffer and by the `sqlite3_free` of that buffer; this is the only
`sqlite3_free` of the run, and a run in which no exec failed calls
`sqlite3_free` not at all. -/
theorem diagnostic_buffers_freed (nds : Bool) (fmt : D → String) (E : Engine D)
    (h : requiredOk E → cursorEnds E) :
    ∃ r, main nds fmt E = some r ∧
      (E.open_rc = SQLITE_OK → E.createTable.rc ≠ SQLITE_OK →
        freed r.trace = [E.createTable.errMsg] ∧
        ∃ pre post, r.trace = pre ++
          [ .sqlite3_exec createTableSQL,
            .cerr ("SQL error: " ++ E.createTable.errMsg),
            .sqlite3_free E.createTable.errMsg ] ++ post) ∧
      (E.open_rc = SQLITE_OK → E.createTable.rc = SQLITE_OK →
        E.insert.rc ≠ SQLITE_OK →
        freed r.trace = [E.insert.errMsg] ∧
        ∃ pre post, r.trace = pre ++
          [ .sqlite3_exec insertSQL,
            .cerr ("SQL error: " ++ E.insert.errMsg),
            .sqlite3_free E.insert.errMsg ] ++ post) ∧
      (requiredOk E → E.fts5.rc ≠ SQLITE_OK →
        freed r.trace = [E.fts5.errMsg] ∧
        ∃ pre post, r.trace = pre ++
          [ .sqlite3_exec fts5SQL,
            .cout ("\nFTS5 extension test: " ++ E.fts5.errMsg),
            .sqlite3_free E.fts5.errMsg ] ++ post) ∧
      (E.open_rc ≠ SQLITE_OK ∨
        (E.open_rc = SQLITE_OK ∧ E.createTable.rc = SQLITE_OK ∧
          E.insert.rc = SQLITE_OK ∧
          (E.select_prepare_rc ≠ SQLITE_OK ∨ E.fts5.rc = SQLITE_OK)) →
        freed r.trace = []) := by
  rcases main_paths nds fmt E h with ⟨h1, hm⟩ | ⟨h1, h2, hm⟩ | ⟨h1, h2, h3, hm⟩ |
      ⟨h1, h2, h3, h4, hm⟩ | ⟨hreq, rows, _, _, _, _, _, hm⟩
  · refine ⟨_, hm, fun h => absurd h h1, fun h => absurd h h1,
      fun hr => absurd hr.1 h1, fun _ => ?_⟩
    simp [openFailTrace, freed]
  · refine ⟨_, hm, fun _ _ => ⟨?_, [Event.sqlite3_open ":memory:"] ++ banner nds E,
        [Event.sqlite3_close], ?_⟩, fun _ h => absurd h h2,
      fun hr => absurd hr.2.1 h2, ?_⟩
    · simp [createFailTrace, freed_append, freed_banner, freed]
    · simp [createFailTrace]
    · rintro (h | ⟨_, h, _⟩)
      · exact absurd h1 h
      · exact absurd h h2
  · refine ⟨_, hm, fun _ h => absurd h2 h, fun _ _ _ => ⟨?_,
        [Event.sqlite3_open ":memory:"] ++ banner nds E ++
          [ .sqlite3_exec createTableSQL, .cout "Created test table" ],
        [Event.sqlite3_close], ?_⟩,
      fun hr => absurd hr.2.2.1 h3, ?_⟩
    · simp [insertFailTrace, freed_append, freed_banner, freed]
    · simp [insertFailTrace]
    · rintro (h | ⟨_, _, h, _⟩)
      · exact absurd h1 h
      · exact absurd h h3
  · refine ⟨_, hm, fun _ h => absurd h2 h, fun _ _ h => absurd h3 h,
      fun hr => absurd hr.2.2.2 h4, fun _ => ?_⟩
    simp [prepareFailTrace, freed_append, freed_banner, freed]
  · obtain ⟨h1, h2, h3, h4⟩ := hreq
    refine ⟨_, hm, fun _ h => absurd h2 h, fun _ _ h => absurd h3 h, fun _ hf => ⟨?_,
        prologue nds E ++ loopTrace fmt rows ++ [Event.sqlite3_finalize .select],
        jsonProbe E ++ [ .sqlite3_close, .cout "\nDatabase closed successfully" ], ?_⟩, ?_⟩
    · rw [freed_ok, if_neg hf]
    · simp [epilogue, fts5Probe, hf]
    · rintro (h | ⟨_, _, _, h | h⟩)
      · exact absurd h1 h
      · exact absurd h4 h
      · rw [freed_ok, if_pos h]

/-- Instance on an engine without FTS5, where the exec of the probe fails. -/
theorem diagnostic_buffers_freed_witness :
    (requiredOk noExtensions → cursorEnds noExtensions) ∧
    ∃ r, main false id noExtensions = some r ∧
      (noExtensions.open_rc = SQLITE_OK → noExtensions.createTable.rc ≠ SQLITE_OK →
        freed r.trace = [noExtensions.createTable.errMsg] ∧
        ∃ pre post, r.trace = pre ++
          [ .sqlite3_exec createTableSQL,
            .cerr ("SQL error: " ++ noExtensions.createTable.errMsg),
            .sqlite3_free noExtensions.createTable.errMsg ] ++ post) ∧
      (noExtensions.open_rc = SQLITE_OK → noExtensions.createTable.rc = SQLITE_OK →
        noExtensions.insert.rc ≠ SQLITE_OK →
        freed r.trace = [noExtensions.insert.errMsg] ∧
        ∃ pre post, r.trace = pre ++
          [ .sqlite3_exec insertSQL,
            .cerr ("SQL error: " ++ noExtensions.insert.errMsg),
            .sqlite3_free noExtensions.insert.errMsg ] ++ post) ∧
      (requiredOk noExtensions → noExtensions.fts5.rc ≠ SQLITE_OK →
        freed r.trace = [noExtensions.fts5.errMsg] ∧
        ∃ pre post, r.trace = pre ++
          [ .sqlite3_exec fts5SQL,
            .cout ("\nFTS5 extension test: " ++ noExtensions.fts5.errMsg),
            .sqlite3_free noExtensions.fts5.errMsg ] ++ post) ∧
      (noExtensions.open_rc ≠ SQLITE_OK ∨
        (noExtensions.open_rc = SQLITE_OK ∧ noExtensions.createTable.rc = SQLITE_OK ∧
          noExtensions.insert.rc = SQLITE_OK ∧
          (noExtensions.select_prepare_rc ≠ SQLITE_OK ∨
            noExtensions.fts5.rc = SQLITE_OK)) →
        freed r.trace = []) :=
  have h : requiredOk noExtensions → cursorEnds noExtensions :=
    fun _ => ⟨⟨SQLITE_DONE, "", ""⟩, by simp [noExtensions, freshDatabase], by decide⟩
  ⟨h, diagnostic_buffers_freed false id noExtensions h⟩

/-- C4: when a required operation fails (step `k`: 1 open, 2 schema
creation, 3 insert, 4 prepare of the `SELECT`), `main` returns `1`, performs no
engine operation and prints no standard-output line of a later step, and
writes a single line, the diagnostic, to standard error.  In particular, when
the open succeeds and the `CREATE TABLE` exec fails (`k = 2`), the `INSERT` exec
and every prepare are absent from the run, and standard output holds neither
"Inserted test data", nor the header of the query results, nor a result-row
line, nor a probe line. -/
theorem fatal_failure_short_circuits (nds : Bool) (fmt : D → String) (E : Engine D)
    (k : Nat) (hk : failsAt E k) :
    ∃ r, main nds fmt E = some r ∧ r.exit = 1 ∧
      (∀ e ∈ r.trace, ∀ j, k < j → ¬ belongsTo fmt j e) ∧
      (stderr r.trace).length = 1 ∧
      (k = 2 →
        Event.sqlite3_exec insertSQL ∉ r.trace ∧
        (∀ sql, Event.sqlite3_prepare_v2 sql ∉ r.trace) ∧
        ∀ text ∈ stdout r.trace, text ≠ "Inserted test data" ∧
          text ≠ "\nQuery results:" ∧ ¬ isRowLine fmt text ∧ ¬ isProbeLine text) := by
  rcases k with _ | _ | _ | _ | _ | k
  · exact absurd hk (by simp [failsAt])
  · refine ⟨_, main_open_fail nds fmt E hk, rfl, not_belongsTo_openFail fmt E,
      by simp [openFailTrace, stderr], fun h => absurd h (by omega)⟩
  · obtain ⟨h1, h2⟩ := hk
    refine ⟨_, main_create_fail nds fmt E h1 h2, rfl, not_belongsTo_createFail nds fmt E,
      ?_, fun _ => ⟨?_, ?_, stdout_of_not_belongsTo fmt _ (not_belongsTo_createFail nds fmt E)⟩⟩
    · simp [createFailTrace, stderr_append, stderr_banner, stderr]
    · intro hm
      exact not_belongsTo_createFail nds fmt E _ hm 3 (by omega) (Or.inl rfl)
    · intro sql
      simp [createFailTrace, banner]
  · obtain ⟨h1, h2, h3⟩ := hk
    refine ⟨_, main_insert_fail nds fmt E h1 h2 h3, rfl, not_belongsTo_insertFail nds fmt E,
      ?_, fun h => absurd h (by omega)⟩
    simp [insertFailTrace, stderr_append, stderr_banner, stderr]
  · obtain ⟨h1, h2, h3, h4⟩ := hk
    refine ⟨_, main_prepare_fail nds fmt E h1 h2 h3 h4, rfl,
      not_belongsTo_prepareFail nds fmt E, ?_, fun h => absurd h (by omega)⟩
    simp [prepareFailTrace, stderr_append, stderr_banner, stderr]
  · exact absurd hk (by simp [failsAt])

/-- Instance on an engine on which the creation of the table fails. -/
theorem fatal_failure_short_circuits_witness :
    failsAt schemaFails 2 ∧
    ∃ r, main false id schemaFails = some r ∧ r.exit = 1 ∧
      (∀ e ∈ r.trace, ∀ j, 2 < j → ¬ belongsTo id j e) ∧
      (stderr r.trace).length = 1 ∧
      (2 = 2 →
        Event.sqlite3_exec insertSQL ∉ r.trace ∧
        (∀ sql, Event.sqlite3_prepare_v2 sql ∉ r.trace) ∧
        ∀ text ∈ stdout r.trace, text ≠ "Inserted test data" ∧
          text ≠ "\nQuery results:" ∧ ¬ isRowLine id text ∧ ¬ isProbeLine text) :=
  have h : failsAt schemaFails 2 := ⟨by decide, by decide⟩
  ⟨h, fatal_failure_short_circuits false id schemaFails 2 h⟩

/-- C7: once the `SELECT` is prepared, if the successive `sqlite3_step` calls
return `SQLITE_ROW` for the rows `rows` and then a status other than
`SQLITE_ROW`, then `main` returns and its standard output holds, right after
the header of the query results and in cursor order, exactly one line per
row, made of two blanks, the text of column 0, a colon and a blank, and the
rendering of the double of column 1 (`  <name>: <value>`), and no line of that
form anywhere else; `sqlite3_step` is called on the `SELECT` once per row plus
once; and the whole run (trace and exit status) is the same whatever the
status that ended the loop and whatever the cursor would have returned after
it. -/
theorem query_loop_reports_rows (nds : Bool) (fmt : D → String) (E : Engine D)
    (rows : List (StepResult D)) (final : StepResult D) (rest : List (StepResult D))
    (hreq : requiredOk E) (hsteps : E.select_steps = rows ++ final :: rest)
    (hrows : ∀ s ∈ rows, s.rc = SQLITE_ROW) (hfinal : final.rc ≠ SQLITE_ROW) :
    ∃ r, main nds fmt E = some r ∧
      (∃ before after,
        stdout r.trace = before ++ "\nQuery results:" ::
          (rows.map (fun s => "  " ++ s.column_text0 ++ ": " ++ fmt s.column_double1)
            ++ after) ∧
        (∀ text ∈ before, ∀ name value, text ≠ "  " ++ name ++ ": " ++ fmt value) ∧
        (∀ text ∈ after, ∀ name value, text ≠ "  " ++ name ++ ": " ++ fmt value)) ∧
      r.trace.count (Event.sqlite3_step .select) = rows.length + 1 ∧
      (∀ rc rest2, rc ≠ SQLITE_ROW →
        main nds fmt { E with select_steps := rows ++ { final with rc := rc } :: rest2 }
          = some r) := by
  refine ⟨_, main_ok nds fmt E rows final rest hreq hsteps hrows hfinal,
    ⟨_, _, stdout_ok nds fmt E rows, ?_, ?_⟩, count_step_ok nds fmt E rows, ?_⟩
  · intro text ht name value hv
    exact not_rowLine_before nds fmt E text ht ⟨name, value, hv⟩
  · intro text ht name value hv
    exact not_rowLine_after fmt E text ht ⟨name, value, hv⟩
  · intro rc rest2 hrc
    exact main_ok nds fmt { E with select_steps := rows ++ { final with rc := rc } :: rest2 }
      rows { final with rc := rc } rest2 hreq rfl hrows hrc

/-- Instance on a fresh database: three rows, then `SQLITE_DONE`; the three
lines are "  Alice: 3.14", "  Bob: 2.71" and "  Charlie: 1.41". -/
theorem query_loop_reports_rows_witness :
    requiredOk freshDatabase ∧
    freshDatabase.select_steps =
      [ ⟨SQLITE_ROW, "Alice", "3.14"⟩, ⟨SQLITE_ROW, "Bob", "2.71"⟩,
        ⟨SQLITE_ROW, "Charlie", "1.41"⟩ ] ++ ⟨SQLITE_DONE, "", ""⟩ :: [] ∧
    ∃ r, main false id freshDatabase = some r ∧
      (∃ before after,
        stdout r.trace = before ++ "\nQuery results:" ::
          ([ "  Alice: 3.14", "  Bob: 2.71", "  Charlie: 1.41" ] ++ after) ∧
        (∀ text ∈ before, ∀ name value, text ≠ "  " ++ name ++ ": " ++ id value) ∧
        (∀ text ∈ after, ∀ name value, text ≠ "  " ++ name ++ ": " ++ id value)) ∧
      r.trace.count (Event.sqlite3_step .select) = 3 + 1 ∧
      (∀ rc rest2, rc ≠ SQLITE_ROW →
        main false id { freshDatabase with select_steps :=
          [ ⟨SQLITE_ROW, "Alice", "3.14"⟩, ⟨SQLITE_ROW, "Bob", "2.71"⟩,
            ⟨SQLITE_ROW, "Charlie", "1.41"⟩ ] ++
            { (⟨SQLITE_DONE, "", ""⟩ : StepResult String) with rc := rc } :: rest2 }
          = some r) :=
  have hreq : requiredOk freshDatabase := by decide
  ⟨hreq, rfl,
    query_loop_reports_rows false id freshDatabase
      [ ⟨SQLITE_ROW, "Alice", "3.14"⟩, ⟨SQLITE_ROW, "Bob", "2.71"⟩,
        ⟨SQLITE_ROW, "Charlie", "1.41"⟩ ] ⟨SQLITE_DONE, "", ""⟩ [] hreq rfl
      (by decide) (by decide)⟩

/-- C5: when every required operation succeeds and the cursor of the `SELECT`
delivers the rows ("Alice", a), ("Bob", b), ("Charlie", c) in that order and
then reports `SQLITE_DONE`, where the stream formatting renders the values `a`,
`b`, `c` (the doubles 3.14, 2.71, 1.41) as "3.14", "2.71", "1.41", `main` returns
`0` and its standard output contains the lines "  Alice: 3.14", "  Bob: 2.71",
"  Charlie: 1.41" in that order, whatever the two capability probes return. -/
theorem end_to_end_rows (nds : Bool) (fmt : D → String) (E : Engine D)
    (a b c : D) (final : StepResult D) (rest : List (StepResult D))
    (hreq : requiredOk E)
    (hsteps : E.select_steps =
      ⟨SQLITE_ROW, "Alice", a⟩ :: ⟨SQLITE_ROW, "Bob", b⟩ ::
        ⟨SQLITE_ROW, "Charlie", c⟩ :: final :: rest)
    (hfinal : final.rc = SQLITE_DONE)
    (ha : fmt a = "3.14") (hb : fmt b = "2.71") (hc : fmt c = "1.41") :
    ∃ r, main nds fmt E = some r ∧ r.exit = 0 ∧
      List.Sublist ["  Alice: 3.14", "  Bob: 2.71", "  Charlie: 1.41"]
        (stdout r.trace) := by
  have hm := main_ok nds fmt E
    [⟨SQLITE_ROW, "Alice", a⟩, ⟨SQLITE_ROW, "Bob", b⟩, ⟨SQLITE_ROW, "Charlie", c⟩]
    final rest hreq (by simp [hsteps]) (by simp) (by rw [hfinal]; decide)
  refine ⟨_, hm, rfl, ?_⟩
  rw [stdout_ok]
  have hl : List.map (fun s : StepResult D => rowLine fmt s.column_text0 s.column_double1)
      [⟨SQLITE_ROW, "Alice", a⟩, ⟨SQLITE_ROW, "Bob", b⟩, ⟨SQLITE_ROW, "Charlie", c⟩] =
      ["  Alice: 3.14", "  Bob: 2.71", "  Charlie: 1.41"] := by
    simp only [List.map_cons, List.map_nil, rowLine, ha, hb, hc]
    decide
  rw [hl]
  exact ((List.sublist_append_left _ _).trans (List.sublist_cons_self _ _)).trans
    (List.sublist_append_right _ _)

/-- Instance on an engine built without FTS5 and JSON1. -/
theorem end_to_end_rows_witness :
    requiredOk noExtensions ∧
    noExtensions.select_steps =
      ⟨SQLITE_ROW, "Alice", "3.14"⟩ :: ⟨SQLITE_ROW, "Bob", "2.71"⟩ ::
        ⟨SQLITE_ROW, "Charlie", "1.41"⟩ :: ⟨SQLITE_DONE, "", ""⟩ :: [] ∧
    ∃ r, main true id noExtensions = some r ∧ r.exit = 0 ∧
      List.Sublist ["  Alice: 3.14", "  Bob: 2.71", "  Charlie: 1.41"]
        (stdout r.trace) :=
  have hreq : requiredOk noExtensions := by decide
  ⟨hreq, rfl,
    end_to_end_rows true id noExtensions "3.14" "2.71" "1.41" ⟨SQLITE_DONE, "", ""⟩ []
      hreq rfl rfl rfl rfl rfl⟩

/-- C6 (as amended): when the required steps succeed and the cursor of the
`SELECT` ends, `main` returns `0` and runs both probes up to the closing of the
connection.  The FTS5 probe prints its "available" line when its exec
succeeds and, when the exec fails, prints the diagnostic text supplied by the
engine, frees it and goes on to the JSON1 probe.  The JSON1 probe prints its
"available" line with the result when the prepare succeeds and the step
yields a row, and prints the fixed line "JSON1 extension not available" when
the prepare fails; execution then goes on to `sqlite3_close`. -/
theorem probes_report (nds : Bool) (fmt : D → String) (E : Engine D)
    (hreq : requiredOk E) (hc : cursorEnds E) :
    ∃ r, main nds fmt E = some r ∧ r.exit = 0 ∧
      (E.fts5.rc = SQLITE_OK → ∃ pre post, r.trace = pre ++
        [ .sqlite3_exec fts5SQL,
          .cout "\nFTS5 extension is available and working",
          .sqlite3_prepare_v2 jsonSQL ] ++ post) ∧
      (E.fts5.rc ≠ SQLITE_OK → ∃ pre post, r.trace = pre ++
        [ .sqlite3_exec fts5SQL,
          .cout ("\nFTS5 extension test: " ++ E.fts5.errMsg),
          .sqlite3_free E.fts5.errMsg,
          .sqlite3_prepare_v2 jsonSQL ] ++ post) ∧
      (E.json_prepare_rc = SQLITE_OK → E.json_step_rc = SQLITE_ROW →
        ∃ pre, r.trace = pre ++
          [ .sqlite3_prepare_v2 jsonSQL, .sqlite3_step .json,
            .sqlite3_column_text .json 0,
            .cout ("JSON1 extension is available, test result: " ++ E.json_text),
            .sqlite3_finalize .json,
            .sqlite3_close, .cout "\nDatabase closed successfully" ]) ∧
      (E.json_prepare_rc ≠ SQLITE_OK →
        ∃ pre, r.trace = pre ++
          [ .sqlite3_prepare_v2 jsonSQL, .cout "JSON1 extension not available",
            .sqlite3_close, .cout "\nDatabase closed successfully" ]) ∧
      (∃ pre, r.trace = pre ++
          [ .sqlite3_close, .cout "\nDatabase closed successfully" ]) := by
  obtain ⟨rows, final, rest, hs, hr, hf⟩ := cursor_split _ hc
  refine ⟨_, main_ok nds fmt E rows final rest hreq hs hr hf, rfl, ?_, ?_, ?_, ?_, ?_⟩
  · intro h
    refine ⟨prologue nds E ++ loopTrace fmt rows ++ [Event.sqlite3_finalize .select],
      (jsonProbe E).tail ++ [ .sqlite3_close, .cout "\nDatabase closed successfully" ], ?_⟩
    simp [epilogue, fts5Probe, h, jsonProbe]
  · intro h
    refine ⟨prologue nds E ++ loopTrace fmt rows ++ [Event.sqlite3_finalize .select],
      (jsonProbe E).tail ++ [ .sqlite3_close, .cout "\nDatabase closed successfully" ], ?_⟩
    simp [epilogue, fts5Probe, h, jsonProbe]
  · intro h1 h2
    refine ⟨prologue nds E ++ loopTrace fmt rows ++ [Event.sqlite3_finalize .select] ++
      fts5Probe E, ?_⟩
    simp [epilogue, jsonProbe, h1, h2]
  · intro h1
    refine ⟨prologue nds E ++ loopTrace fmt rows ++ [Event.sqlite3_finalize .select] ++
      fts5Probe E, ?_⟩
    simp [epilogue, jsonProbe, h1]
  · exact ⟨prologue nds E ++ loopTrace fmt rows ++ [Event.sqlite3_finalize .select] ++
      fts5Probe E ++ jsonProbe E, by simp [epilogue]⟩

/-- Instance on an engine built without FTS5 and JSON1. -/
theorem probes_report_witness :
    requiredOk noExtensions ∧ cursorEnds noExtensions ∧
    ∃ r, main false id noExtensions = some r ∧ r.exit = 0 ∧
      (noExtensions.fts5.rc = SQLITE_OK → ∃ pre post, r.trace = pre ++
        [ .sqlite3_exec fts5SQL,
          .cout "\nFTS5 extension is available and working",
          .sqlite3_prepare_v2 jsonSQL ] ++ post) ∧
      (noExtensions.fts5.rc ≠ SQLITE_OK → ∃ pre post, r.trace = pre ++
        [ .sqlite3_exec fts5SQL,
          .cout ("\nFTS5 extension test: " ++ noExtensions.fts5.errMsg),
          .sqlite3_free noExtensions.fts5.errMsg,
          .sqlite3_prepare_v2 jsonSQL ] ++ post) ∧
      (noExtensions.json_prepare_rc = SQLITE_OK → noExtensions.json_step_rc = SQLITE_ROW →
        ∃ pre, r.trace = pre ++
          [ .sqlite3_prepare_v2 jsonSQL, .sqlite3_step .json,
            .sqlite3_column_text .json 0,
            .cout ("JSON1 extension is available, test result: " ++ noExtensions.json_text),
            .sqlite3_finalize .json,
            .sqlite3_close, .cout "\nDatabase closed successfully" ]) ∧
      (noExtensions.json_prepare_rc ≠ SQLITE_OK →
        ∃ pre, r.trace = pre ++
          [ .sqlite3_prepare_v2 jsonSQL, .cout "JSON1 extension not available",
            .sqlite3_close, .cout "\nDatabase closed successfully" ]) ∧
      (∃ pre, r.trace = pre ++
          [ .sqlite3_close, .cout "\nDatabase closed successfully" ]) :=
  have hreq : requiredOk noExtensions := by decide
  have hc : cursorEnds noExtensions :=
    ⟨⟨SQLITE_DONE, "", ""⟩, by simp [noExtensions, freshDatabase], by decide⟩
  ⟨hreq, hc, probes_report false id noExtensions hreq hc⟩

/-- C6 (as stated, refuted): on the engine behaviour `noExtensions` the required
steps succeed and the prepare of the JSON1 probe fails with the engine
diagnostic "no such function: json_array"; `main` returns `0`, prints
"JSON1 extension not available", and no line it writes, on either stream,
contains the diagnostic text of the engine. -/
theorem json_failure_prints_no_engine_diagnostic :
    requiredOk noExtensions ∧ noExtensions.json_prepare_rc ≠ SQLITE_OK ∧
    noExtensions.json_errmsg = "no such function: json_array" ∧
    ∃ r, main false id noExtensions = some r ∧ r.exit = 0 ∧
      "JSON1 extension not available" ∈ stdout r.trace ∧
      ¬ reportsDiagnostic noExtensions.json_errmsg (stdout r.trace ++ stderr r.trace) := by
  have hm := main_ok false id noExtensions
    [⟨SQLITE_ROW, "Alice", "3.14"⟩, ⟨SQLITE_ROW, "Bob", "2.71"⟩,
      ⟨SQLITE_ROW, "Charlie", "1.41"⟩] ⟨SQLITE_DONE, "", ""⟩ [] (by decide) rfl
    (by decide) (by decide)
  refine ⟨by decide, by decide, rfl, _, hm, rfl, ?_, ?_⟩
  · decide
  · decide

end Claims

end SqliteCmake
